import Mathlib

/-! BalancerController (source/Gui/BalancerController.cpp)

A shallow embedding of `_BalancerController`, the feedback loop that tunes the
per-color aging limit `cellMaxAge[]` from the per-tick self-replicator counts.

Conventions of the embedding:

* the color-indexed C arrays are functions on `Fin MAX_COLORS`; the constant
  `MAX_COLORS` is declared in a header outside the sources at hand and is a
  parameter of every definition;
* the `double` working values are exact rationals (`1.3 = 13/10`, `1.1 = 11/10`);
* the replicator counters and the measurement counter are natural numbers, so the
  quotient `_numReplicators[i] / _numMeasurements` of line 70 is the truncating
  integer division of C++; the local sum `averageReplicators` of line 63 is a
  `uint64_t`, and the addition of line 74 is taken modulo `2 ^ 64`;
* the tick counter is an unsigned 64-bit integer and the balancer interval a signed
  `int`, so the comparison of line 61 is carried out modulo `2 ^ 64`;
* `*_lastTimestep` on an empty optional is a fault: the functions that reach it
  return `Option`, and `none` is the fault;
* the helper `toInt` of line 94 is declared outside the sources at hand:
  `doAdaptionIfNecessary` and `process` take it as a parameter, and the definition
  `toInt` below is its model from the spec (rounding).

The selection cloning of `buildExtendedSelection` follows in `SelectionBuilder`.
-/

namespace BalancerController

/-! ## Constants of the anonymous namespace (lines 8-15) -/

/-- The constant `AdaptionRatio = 1.3`. -/
def AdaptionRatio : ℚ := 13 / 10

/-- The constant `AdaptionFactor = 1.1`. -/
def AdaptionFactor : ℚ := 11 / 10

/-- The constant `MaxCellAge = 300000` (compared with a `double`). -/
def MaxCellAge : ℚ := 300000

/-- The constant `MinReplicatorsUpperValue = 100` (compared with a `double`). -/
def MinReplicatorsUpperValue : ℚ := 100

/-- The constant `MinReplicatorsLowerValue = 20` (compared with an integer quotient). -/
def MinReplicatorsLowerValue : ℕ := 20

/-- Modelled from the spec: `toDouble`, a conversion helper declared outside the sources
at hand. The spec calls the working aging limit a floating-point value; with the working
values taken as exact rationals the conversion is the embedding of the integers. -/
def toDouble (n : ℕ) : ℚ := (n : ℚ)

/-! ## The collaborator and the controller state -/

/-- The fields of `SimulationParameters` that the controller reads and writes. -/
structure SimulationParameters (MAX_COLORS : ℕ) where
  cellMaxAgeBalancer : Bool
  cellMaxAgeBalancerInterval : ℤ
  cellMaxAge : Fin MAX_COLORS → ℤ

/-- What the controller observes of `_simController` during one `process()` call: the
parameter store, this tick's `statistics.timeline.timestep.numSelfReplicators`, the
tick counter, and (as a ghost field) the log of the snapshots passed to
`setSimulationParameters` so far. -/
structure SimulationController (MAX_COLORS : ℕ) where
  parameters : SimulationParameters MAX_COLORS
  numSelfReplicators : Fin MAX_COLORS → ℕ
  currentTimestep : ℕ
  setCalls : List (SimulationParameters MAX_COLORS)

/-- The data members of `_BalancerController`. -/
structure State (MAX_COLORS : ℕ) where
  _lastCellMaxAge : Fin MAX_COLORS → ℤ
  _lastAdaptiveCellMaxAge : Bool
  _cellMaxAge : Fin MAX_COLORS → ℚ
  _numReplicators : Fin MAX_COLORS → ℕ
  _numMeasurements : ℕ
  _lastTimestep : Option ℕ

variable {MAX_COLORS : ℕ}

/-- The call `_simController->getSimulationParameters()`. -/
def getSimulationParameters (sim : SimulationController MAX_COLORS) :
    SimulationParameters MAX_COLORS :=
  sim.parameters

/-- The call `_simController->setSimulationParameters(parameters)`: the whole snapshot is
replaced, and the call is logged. -/
def setSimulationParameters (sim : SimulationController MAX_COLORS)
    (parameters : SimulationParameters MAX_COLORS) : SimulationController MAX_COLORS :=
  { sim with parameters := parameters, setCalls := sim.setCalls ++ [parameters] }

/-- The call `_simController->getCurrentTimestep()`. -/
def getCurrentTimestep (sim : SimulationController MAX_COLORS) : ℕ :=
  sim.currentTimestep

/-! ## Machine arithmetic of line 61 -/

/-- Subtraction of two `uint64_t` values. -/
def uint64Sub (a b : ℕ) : ℕ := (a + 2 ^ 64 - b) % 2 ^ 64

/-- Conversion of a signed `int` to `uint64_t` (the usual arithmetic conversion applied
to the right operand of the comparison of line 61). -/
def toUInt64 (i : ℤ) : ℕ := (i % 2 ^ 64).toNat

/-! ## `startNewMeasurement` (lines 102-109) and `saveLastState` (lines 111-118) -/

/-- The window restart: the window start becomes the current tick and the accumulators
and the measurement counter are zeroed. -/
def startNewMeasurement (s : State MAX_COLORS) (sim : SimulationController MAX_COLORS) :
    State MAX_COLORS :=
  { s with
    _lastTimestep := some (getCurrentTimestep sim)
    _numReplicators := fun _ => 0
    _numMeasurements := 0 }

/-- The change-detection snapshot is refreshed from the store. -/
def saveLastState (s : State MAX_COLORS) (sim : SimulationController MAX_COLORS) :
    State MAX_COLORS :=
  let parameters := getSimulationParameters sim
  { s with
    _lastCellMaxAge := fun i => parameters.cellMaxAge i
    _lastAdaptiveCellMaxAge := parameters.cellMaxAgeBalancer }

/-! ## `initializeIfNecessary` (lines 32-51) -/

/-- The local `needsInitialization` as it stands at line 45: the loop of lines 36-40
followed by the test of lines 41-43. -/
def needsInitialization (s : State MAX_COLORS) (sim : SimulationController MAX_COLORS) :
    Bool :=
  let parameters := getSimulationParameters sim
  let afterLoop := (List.finRange MAX_COLORS).foldl
    (fun needs i => if parameters.cellMaxAge i ≠ s._lastCellMaxAge i then true else needs)
    false
  if parameters.cellMaxAgeBalancer ≠ s._lastAdaptiveCellMaxAge then true else afterLoop

/-- The re-initialization check: on a difference between the store and the snapshot the
working limits are overwritten with the store's integers and the window is restarted. -/
def initializeIfNecessary (s : State MAX_COLORS) (sim : SimulationController MAX_COLORS) :
    State MAX_COLORS :=
  let parameters := getSimulationParameters sim
  if needsInitialization s sim then
    startNewMeasurement { s with _cellMaxAge := fun i => (parameters.cellMaxAge i : ℚ) } sim
  else s

/-! ## `doAdaptionIfNecessary` (lines 53-100) -/

/-- The locals of the loop of lines 66-77. -/
structure Scan (MAX_COLORS : ℕ) where
  maxReplicators : ℕ
  averageReplicators : ℕ
  minReplicators : ℕ
  colors : List (Fin MAX_COLORS)

/-- One iteration of the loop of lines 66-77. The local `averageReplicators` is declared
`uint64_t` at line 63: the addition of line 74 is taken modulo `2 ^ 64`. -/
def scanStep (numReplicators : Fin MAX_COLORS → ℕ) (numMeasurements : ℕ)
    (acc : Scan MAX_COLORS) (i : Fin MAX_COLORS) : Scan MAX_COLORS :=
  let acc1 : Scan MAX_COLORS :=
    if acc.maxReplicators < numReplicators i then
      { acc with maxReplicators := numReplicators i }
    else acc
  if numReplicators i / numMeasurements > MinReplicatorsLowerValue then
    let acc2 : Scan MAX_COLORS :=
      if acc1.minReplicators = 0 ∨ acc1.minReplicators > numReplicators i then
        { acc1 with minReplicators := numReplicators i }
      else acc1
    { acc2 with
      averageReplicators := (acc2.averageReplicators + numReplicators i) % 2 ^ 64
      colors := acc2.colors ++ [i] }
  else acc1

/-- The loop of lines 66-77, started from the initial values of lines 62-65. -/
def scanColors (numReplicators : Fin MAX_COLORS → ℕ) (numMeasurements : ℕ) :
    Scan MAX_COLORS :=
  (List.finRange MAX_COLORS).foldl (scanStep numReplicators numMeasurements)
    { maxReplicators := 0, averageReplicators := 0, minReplicators := 0, colors := [] }

/-- The local `averageReplicators` after lines 78-80: the sum over the collected colors,
as the `uint64_t` accumulation of line 74 leaves it, divided by their number, when there
are any. -/
def crossAverage (numReplicators : Fin MAX_COLORS → ℕ) (numMeasurements : ℕ) : ℕ :=
  let sc := scanColors numReplicators numMeasurements
  if sc.colors ≠ [] then sc.averageReplicators / sc.colors.length
  else sc.averageReplicators

/-- The body of the loop of lines 83-90 for one collected color. -/
def adaptColor (numReplicators : Fin MAX_COLORS → ℕ) (numMeasurements : ℕ)
    (averageReplicators : ℕ) (cellMaxAge : Fin MAX_COLORS → ℚ) (color : Fin MAX_COLORS) :
    Fin MAX_COLORS → ℚ :=
  if toDouble (numReplicators color) / (numMeasurements : ℚ) > MinReplicatorsUpperValue
      ∧ toDouble (numReplicators color) / toDouble averageReplicators > AdaptionRatio then
    Function.update cellMaxAge color (cellMaxAge color / AdaptionFactor)
  else if cellMaxAge color < MaxCellAge
      ∧ toDouble averageReplicators / toDouble (numReplicators color) > AdaptionRatio then
    Function.update cellMaxAge color (cellMaxAge color * AdaptionFactor)
  else cellMaxAge

/-- The accumulation of lines 57-60. -/
def accumulate (s : State MAX_COLORS) (sim : SimulationController MAX_COLORS) :
    State MAX_COLORS :=
  { s with
    _numReplicators := fun i => s._numReplicators i + sim.numSelfReplicators i
    _numMeasurements := s._numMeasurements + 1 }

/-- The function `doAdaptionIfNecessary`. The helper `toInt` (the conversion of a
`double` to `int` used at line 94) is declared outside the sources at hand and is a
parameter. The result is `none` exactly when `*_lastTimestep` is evaluated on an empty
optional. -/
def doAdaptionIfNecessary (toInt : ℚ → ℤ) (s : State MAX_COLORS)
    (sim : SimulationController MAX_COLORS) :
    Option (State MAX_COLORS × SimulationController MAX_COLORS) :=
  let parameters := getSimulationParameters sim
  let s1 := accumulate s sim
  match s1._lastTimestep with
  | none => none
  | some lastTimestep =>
    if uint64Sub (getCurrentTimestep sim) lastTimestep
        > toUInt64 parameters.cellMaxAgeBalancerInterval then
      let sc := scanColors s1._numReplicators s1._numMeasurements
      let averageReplicators := crossAverage s1._numReplicators s1._numMeasurements
      if averageReplicators > 0 then
        let cellMaxAge := sc.colors.foldl
          (adaptColor s1._numReplicators s1._numMeasurements averageReplicators)
          s1._cellMaxAge
        let s2 := { s1 with _cellMaxAge := cellMaxAge }
        let parameters2 := getSimulationParameters sim
        let sim2 := setSimulationParameters sim
          { parameters2 with cellMaxAge := fun i => toInt (cellMaxAge i) }
        some (startNewMeasurement s2 sim2, sim2)
      else some (startNewMeasurement s1 sim, sim)
    else some (s1, sim)

/-! ## `process` (lines 21-30) -/

/-- One call of `process()`: the controller state and the collaborator after the call,
or `none` if the call faults. -/
def process (toInt : ℚ → ℤ) (s : State MAX_COLORS) (sim : SimulationController MAX_COLORS) :
    Option (State MAX_COLORS × SimulationController MAX_COLORS) :=
  let parameters := getSimulationParameters sim
  if parameters.cellMaxAgeBalancer then
    match doAdaptionIfNecessary toInt (initializeIfNecessary s sim) sim with
    | none => none
    | some (s1, sim1) => some (saveLastState s1 sim1, sim1)
  else some (saveLastState s sim, sim)

/-! ## Auxiliary definitions used in the statements -/

/-- The activity test of line 70 for one color, as the code evaluates it. -/
def isActive (numReplicators : Fin MAX_COLORS → ℕ) (numMeasurements : ℕ)
    (i : Fin MAX_COLORS) : Bool :=
  decide (numReplicators i / numMeasurements > MinReplicatorsLowerValue)

/-- The value that the body of the loop of lines 83-90 leaves in `_cellMaxAge[color]`,
as a function of the value `x` it finds there. -/
def adaptedValue (numReplicators : Fin MAX_COLORS → ℕ) (numMeasurements : ℕ)
    (averageReplicators : ℕ) (color : Fin MAX_COLORS) (x : ℚ) : ℚ :=
  if toDouble (numReplicators color) / (numMeasurements : ℚ) > MinReplicatorsUpperValue
      ∧ toDouble (numReplicators color) / toDouble averageReplicators > AdaptionRatio then
    x / AdaptionFactor
  else if x < MaxCellAge
      ∧ toDouble averageReplicators / toDouble (numReplicators color) > AdaptionRatio then
    x * AdaptionFactor
  else x

/-- The snapshot written at lines 92-96, given the adjusted working limits. -/
def writtenParameters (toInt : ℚ → ℤ) (sim : SimulationController MAX_COLORS)
    (cellMaxAge : Fin MAX_COLORS → ℚ) : SimulationParameters MAX_COLORS :=
  { sim.parameters with cellMaxAge := fun i => toInt (cellMaxAge i) }

/-- The working limits after the loop of lines 83-90. -/
def adaptedCellMaxAge (s : State MAX_COLORS) (sim : SimulationController MAX_COLORS) :
    Fin MAX_COLORS → ℚ :=
  let s1 := accumulate s sim
  (scanColors s1._numReplicators s1._numMeasurements).colors.foldl
    (adaptColor s1._numReplicators s1._numMeasurements
      (crossAverage s1._numReplicators s1._numMeasurements))
    s1._cellMaxAge

/-- The example of the spec: one measurement with 130 replicators of color 0 and 50 of
color 1, all limits at 1000, the window started at tick 0. -/
def exampleState : State 7 :=
  { _lastCellMaxAge := fun _ => 1000
    _lastAdaptiveCellMaxAge := true
    _cellMaxAge := fun _ => 1000
    _numReplicators := fun _ => 0
    _numMeasurements := 0
    _lastTimestep := some 0 }

/-- The collaborator of the example: interval 10, tick 11. -/
def exampleSim : SimulationController 7 :=
  { parameters :=
      { cellMaxAgeBalancer := true, cellMaxAgeBalancerInterval := 10,
        cellMaxAge := fun _ => 1000 }
    numSelfReplicators := ![130, 50, 0, 0, 0, 0, 0]
    currentTimestep := 11
    setCalls := [] }

/-- A controller in the middle of a window: five measurements taken since tick 0, the
snapshot equal to a store with all limits at 1000. -/
def midWindowState : State 7 :=
  { _lastCellMaxAge := fun _ => 1000
    _lastAdaptiveCellMaxAge := true
    _cellMaxAge := fun _ => 1000
    _numReplicators := ![700, 300, 0, 0, 0, 0, 0]
    _numMeasurements := 5
    _lastTimestep := some 0 }

/-- The collaborator at tick 6 after a user has set the limit of color 2 to 500. -/
def editedSim : SimulationController 7 :=
  { parameters :=
      { cellMaxAgeBalancer := true, cellMaxAgeBalancerInterval := 10,
        cellMaxAge := ![1000, 1000, 500, 1000, 1000, 1000, 1000] }
    numSelfReplicators := ![130, 50, 0, 0, 0, 0, 0]
    currentTimestep := 6
    setCalls := [] }

/-- The collaborator at tick 6 with the balancer switched off. -/
def disabledSim : SimulationController 7 :=
  { parameters :=
      { cellMaxAgeBalancer := false, cellMaxAgeBalancerInterval := 10,
        cellMaxAge := ![1000, 1000, 500, 1000, 1000, 1000, 1000] }
    numSelfReplicators := ![130, 50, 0, 0, 0, 0, 0]
    currentTimestep := 6
    setCalls := [] }

/-- The collaborator at tick 11 with a sparse population: no color reaches an average
above 20. -/
def sparseSim : SimulationController 7 :=
  { parameters :=
      { cellMaxAgeBalancer := true, cellMaxAgeBalancerInterval := 10,
        cellMaxAge := fun _ => 1000 }
    numSelfReplicators := ![20, 7, 0, 0, 0, 0, 0]
    currentTimestep := 11
    setCalls := [] }

/-- A closed-loop run: `process()` is called once per input, and between two calls only
the tick counter and the statistics change (the store is edited by nobody else). -/
def runTicks (toInt : ℚ → ℤ) :
    State MAX_COLORS → SimulationController MAX_COLORS → List (ℕ × (Fin MAX_COLORS → ℕ))
      → Option (State MAX_COLORS × SimulationController MAX_COLORS)
  | s, sim, [] => some (s, sim)
  | s, sim, input :: rest =>
    match process toInt s
        { sim with currentTimestep := input.1, numSelfReplicators := input.2 } with
    | none => none
    | some (s1, sim1) => runTicks toInt s1 sim1 rest

/-- The collaborator at tick 10, exactly one interval after the window start 0. -/
def exactIntervalSim : SimulationController 7 :=
  { parameters :=
      { cellMaxAgeBalancer := true, cellMaxAgeBalancerInterval := 10,
        cellMaxAge := fun _ => 1000 }
    numSelfReplicators := ![130, 50, 0, 0, 0, 0, 0]
    currentTimestep := 10
    setCalls := [] }

/-- A controller that has not yet seen an enabled balancer: the snapshot flag is false
and the window start is unset. -/
def freshState : State 7 :=
  { _lastCellMaxAge := fun _ => 0
    _lastAdaptiveCellMaxAge := false
    _cellMaxAge := fun _ => 0
    _numReplicators := fun _ => 0
    _numMeasurements := 0
    _lastTimestep := none }

/-- The collaborator with the balancer enabled and the interval set to 0. -/
def zeroIntervalSim : SimulationController 7 :=
  { parameters :=
      { cellMaxAgeBalancer := true, cellMaxAgeBalancerInterval := 0,
        cellMaxAge := fun _ => 1000 }
    numSelfReplicators := ![130, 50, 0, 0, 0, 0, 0]
    currentTimestep := 1
    setCalls := [] }

/-- The collaborator with the balancer enabled and the interval set to -1. -/
def negativeIntervalSim : SimulationController 7 :=
  { parameters :=
      { cellMaxAgeBalancer := true, cellMaxAgeBalancerInterval := -1,
        cellMaxAge := fun _ => 1000 }
    numSelfReplicators := ![130, 50, 0, 0, 0, 0, 0]
    currentTimestep := 1
    setCalls := [] }

/-- The controller states reached after a re-initialization: the state left by an enabled
`process()` call that re-initializes, and every state that further `process()` calls
lead to, whatever the collaborator presents at each call (edited store, toggled enable
flag, any statistics, any tick). `ok` is a condition on the stores that the
re-initializations of the run read. -/
inductive ReachedAfterInit (toInt : ℚ → ℤ) (ok : SimulationParameters MAX_COLORS → Prop) :
    State MAX_COLORS → Prop
  | init (s : State MAX_COLORS) (sim : SimulationController MAX_COLORS)
      (s1 : State MAX_COLORS) (sim1 : SimulationController MAX_COLORS) :
      sim.parameters.cellMaxAgeBalancer = true → needsInitialization s sim = true →
      ok sim.parameters → process toInt s sim = some (s1, sim1) →
      ReachedAfterInit toInt ok s1
  | step (s : State MAX_COLORS) (sim : SimulationController MAX_COLORS)
      (s1 : State MAX_COLORS) (sim1 : SimulationController MAX_COLORS) :
      ReachedAfterInit toInt ok s →
      (sim.parameters.cellMaxAgeBalancer = true → needsInitialization s sim = true →
        ok sim.parameters) →
      process toInt s sim = some (s1, sim1) →
      ReachedAfterInit toInt ok s1

/-- The collaborator at tick 0 when the balancer is switched on: interval 10, all limits
at 1000. -/
def startSim : SimulationController 7 :=
  { parameters :=
      { cellMaxAgeBalancer := true, cellMaxAgeBalancerInterval := 10,
        cellMaxAge := fun _ => 1000 }
    numSelfReplicators := ![130, 50, 0, 0, 0, 0, 0]
    currentTimestep := 0
    setCalls := [] }

/-- The state that `process()` leaves when a fresh controller is called with `startSim`:
re-initialized from the store, one measurement taken. -/
def afterInitState : State 7 :=
  { _lastCellMaxAge := fun i => startSim.parameters.cellMaxAge i
    _lastAdaptiveCellMaxAge := startSim.parameters.cellMaxAgeBalancer
    _cellMaxAge := fun i => (startSim.parameters.cellMaxAge i : ℚ)
    _numReplicators := fun i => 0 + startSim.numSelfReplicators i
    _numMeasurements := 0 + 1
    _lastTimestep := some startSim.currentTimestep }

/-- The inputs of `j` consecutive calls after tick `T`, one per tick, each reporting 130
replicators of color 0 and 50 of color 1. -/
def shrinkInputs : ℕ → ℕ → List (ℕ × (Fin 7 → ℕ))
  | _, 0 => []
  | T, j + 1 => (T + 1, ![130, 50, 0, 0, 0, 0, 0]) :: shrinkInputs (T + 1) j

/-- A controller whose window has just been restarted at tick 0, with every limit at
the ceiling 300000. -/
def ceilingState : State 7 :=
  { _lastCellMaxAge := fun _ => 300000
    _lastAdaptiveCellMaxAge := true
    _cellMaxAge := fun _ => 300000
    _numReplicators := fun _ => 0
    _numMeasurements := 0
    _lastTimestep := some 0 }

/-- The collaborator of `ceilingState`: balancer enabled, interval 0, every limit in the
store at 300000. -/
def ceilingSim : SimulationController 7 :=
  { parameters :=
      { cellMaxAgeBalancer := true, cellMaxAgeBalancerInterval := 0,
        cellMaxAge := fun _ => 300000 }
    numSelfReplicators := fun _ => 0
    currentTimestep := 0
    setCalls := [] }

/-- The controller states reached from creation: a controller is created with the
snapshot flag false and the window start unset (the other members are arbitrary), and
every returning `process()` call leads to a further state, whatever the collaborator
presents at the call (edited store, toggled enable flag, any statistics, any tick). -/
inductive ReachedFromCreation (toInt : ℚ → ℤ) : State MAX_COLORS → Prop
  | created (s : State MAX_COLORS) :
      s._lastAdaptiveCellMaxAge = false → s._lastTimestep = none →
      ReachedFromCreation toInt s
  | step (s : State MAX_COLORS) (sim : SimulationController MAX_COLORS)
      (s1 : State MAX_COLORS) (sim1 : SimulationController MAX_COLORS) :
      ReachedFromCreation toInt s → process toInt s sim = some (s1, sim1) →
      ReachedFromCreation toInt s1

/-- Modelled from the spec: `toInt`, the conversion of a `double` to `int` applied to
the working limits at line 94, a helper declared outside the sources at hand. The spec
has the decision "write the rounded integer `cellMaxAge[]` back": the conversion is
rounding to the nearest integer. -/
def toInt (q : ℚ) : ℤ := round q

/-- The collaborator at tick 0 when the balancer is switched on with every limit in the
store at 100: interval 10, counts 130 and 50. -/
def hundredStartSim : SimulationController 7 :=
  { parameters :=
      { cellMaxAgeBalancer := true, cellMaxAgeBalancerInterval := 10,
        cellMaxAge := fun _ => 100 }
    numSelfReplicators := ![130, 50, 0, 0, 0, 0, 0]
    currentTimestep := 0
    setCalls := [] }

/-- The state that `process()` leaves when a fresh controller is called with
`hundredStartSim`: re-initialized from the store, one measurement taken. -/
def hundredAfterInitState : State 7 :=
  { _lastCellMaxAge := fun i => hundredStartSim.parameters.cellMaxAge i
    _lastAdaptiveCellMaxAge := hundredStartSim.parameters.cellMaxAgeBalancer
    _cellMaxAge := fun i => (hundredStartSim.parameters.cellMaxAge i : ℚ)
    _numReplicators := fun i => 0 + hundredStartSim.numSelfReplicators i
    _numMeasurements := 0 + 1
    _lastTimestep := some hundredStartSim.currentTimestep }

/-- The collaborator at tick 11, unchanged otherwise: interval 10, every limit in the
store at 100, counts 130 and 50. -/
def hundredSim : SimulationController 7 :=
  { parameters :=
      { cellMaxAgeBalancer := true, cellMaxAgeBalancerInterval := 10,
        cellMaxAge := fun _ => 100 }
    numSelfReplicators := ![130, 50, 0, 0, 0, 0, 0]
    currentTimestep := 11
    setCalls := [] }

/-- Accumulated counts whose sum is `2^64`: `3 * 2^62` replicators of color 0 and `2^62`
of color 1. -/
def wrappingCounts : Fin 7 → ℕ :=
  ![13835058055282163712, 4611686018427387904, 0, 0, 0, 0, 0]

/-- The collaborator at tick 11 (interval 10, all limits at 1000) reporting counts that
bring the accumulated counts 130 and 50 of `afterInitState` to `wrappingCounts`. -/
def wrapSim : SimulationController 7 :=
  { parameters :=
      { cellMaxAgeBalancer := true, cellMaxAgeBalancerInterval := 10,
        cellMaxAge := fun _ => 1000 }
    numSelfReplicators := ![13835058055282163582, 4611686018427387854, 0, 0, 0, 0, 0]
    currentTimestep := 11
    setCalls := [] }

/-- A controller whose window has just been restarted at tick 0, with every working
limit at 299999, just below the ceiling. -/
def nearCeilingState : State 7 :=
  { _lastCellMaxAge := fun _ => 299999
    _lastAdaptiveCellMaxAge := true
    _cellMaxAge := fun _ => 299999
    _numReplicators := fun _ => 0
    _numMeasurements := 0
    _lastTimestep := some 0 }

end BalancerController

/-! Selection cloning (source/model/simulationcontroller.h, EntityFactoryImpl.h): only the
declarations are among the sources, the two-pass build is modelled from the spec. -/

namespace SelectionBuilder

/-- Modelled from the spec: a decoded change-description of a cell (§4.3, §6), reduced
to its id in the serialized selection and the ids of the cells it references (its bond
partners). Only the declarations of `buildExtendedSelection` and of
`EntityFactoryImpl::build` are among the sources; their bodies and the description types
are missing. -/
structure CellChangeDescription where
  id : ℕ
  bonds : List ℕ

/-- Modelled from the spec: a live cell, reduced to its id and the ids of the cells it
is bonded to. -/
structure Cell where
  id : ℕ
  bonds : List ℕ

/-- Modelled from the spec: `EntityFactoryImpl::build` for a cell description (§4.2),
whose body is missing: it "returns a newly allocated, internally consistent entity with
no cross-entity references yet resolved". -/
def build (desc : CellChangeDescription) : Cell :=
  { id := desc.id, bonds := [] }

/-- Modelled from the spec: pass 1 of `buildExtendedSelection` (§4.3), whose body is
missing: for each description in order, build the entity, assign it a fresh id and
record `oldId → newId`. The fresh ids are taken from a counter `nextId` of the owning
context. The result is the list of cells and the id map. -/
def construct : ℕ → List CellChangeDescription → List Cell × List (ℕ × ℕ)
  | _, [] => ([], [])
  | nextId, desc :: rest =>
    ({ build desc with id := nextId } :: (construct (nextId + 1) rest).1,
      (desc.id, nextId) :: (construct (nextId + 1) rest).2)

/-- Modelled from the spec: the rewiring of one cell in pass 2 (§4.3): every reference
of the description is looked up in the id map; a reference whose old id is absent from
the map is dropped, the others are replaced by the new id. -/
def rewire (idMap : List (ℕ × ℕ)) (desc : CellChangeDescription) (cell : Cell) : Cell :=
  { cell with bonds := desc.bonds.filterMap (fun r => idMap.lookup r) }

/-- Modelled from the spec: pass 2 of `buildExtendedSelection` over all cells. -/
def rewireAll (idMap : List (ℕ × ℕ)) : List CellChangeDescription → List Cell → List Cell
  | desc :: descs, cell :: cells => rewire idMap desc cell :: rewireAll idMap descs cells
  | _, _ => []

/-- Modelled from the spec: `buildExtendedSelection` (§4.3) on the decoded
descriptions, whose body is missing: pass 1 constructs the cells and fills the id map,
pass 2 rewires the references through the completed map. The result is the list of live
cells and the old-id to new-id map. -/
def buildExtendedSelection (nextId : ℕ) (descs : List CellChangeDescription) :
    List Cell × List (ℕ × ℕ) :=
  (rewireAll (construct nextId descs).2 descs (construct nextId descs).1,
    (construct nextId descs).2)

/-- The selection of the spec's example: the cells 1, 2, 3 with the bonds 1-2 and 2-3,
each recorded in both cells, and a bond of cell 3 to the cell 4 outside the selection. -/
def exampleSelection : List CellChangeDescription :=
  [{ id := 1, bonds := [2] }, { id := 2, bonds := [1, 3] }, { id := 3, bonds := [2, 4] }]

end SelectionBuilder

/-! # Theorems -/

namespace BalancerController

variable {MAX_COLORS : ℕ}

/-! ## The scanning loop -/

theorem foldl_scanStep_colors (n : Fin MAX_COLORS → ℕ) (m : ℕ) (l : List (Fin MAX_COLORS))
    (acc : Scan MAX_COLORS) :
    (l.foldl (scanStep n m) acc).colors = acc.colors ++ l.filter (isActive n m) := by
  induction l generalizing acc with
  | nil => simp
  | cons i l ih =>
    rw [List.foldl_cons, ih]
    by_cases h : n i / m > MinReplicatorsLowerValue
    · have hi : isActive n m i = true := by simp [isActive, h]
      simp only [scanStep, h, if_true, List.filter_cons, hi]
      split_ifs <;> simp
    · have hi : isActive n m i = false := by simp [isActive, h]
      simp only [scanStep, h, if_false, List.filter_cons, hi]
      split_ifs <;> simp_all

theorem foldl_scanStep_sum (n : Fin MAX_COLORS → ℕ) (m : ℕ) (l : List (Fin MAX_COLORS))
    (acc : Scan MAX_COLORS) (hacc : acc.averageReplicators < 2 ^ 64) :
    (l.foldl (scanStep n m) acc).averageReplicators
      = (acc.averageReplicators + ((l.filter (isActive n m)).map n).sum) % 2 ^ 64 := by
  induction l generalizing acc with
  | nil =>
    simp only [List.foldl_nil, List.filter_nil, List.map_nil, List.sum_nil, Nat.add_zero]
    exact (Nat.mod_eq_of_lt hacc).symm
  | cons i l ih =>
    rw [List.foldl_cons]
    by_cases h : n i / m > MinReplicatorsLowerValue
    · have hi : isActive n m i = true := by simp [isActive, h]
      have hstep : (scanStep n m acc i).averageReplicators
          = (acc.averageReplicators + n i) % 2 ^ 64 := by
        simp only [scanStep, h, if_true]
        split_ifs <;> rfl
      rw [ih _ (by rw [hstep]; exact Nat.mod_lt _ (by norm_num)), hstep]
      simp only [List.filter_cons, hi, if_true, List.map_cons, List.sum_cons]
      rw [Nat.mod_add_mod, Nat.add_assoc]
    · have hi : isActive n m i = false := by simp [isActive, h]
      have hstep : (scanStep n m acc i).averageReplicators = acc.averageReplicators := by
        simp only [scanStep, h, if_false]
        split_ifs <;> rfl
      rw [ih _ (by rw [hstep]; exact hacc), hstep]
      simp [List.filter_cons, hi]

theorem scanColors_colors (n : Fin MAX_COLORS → ℕ) (m : ℕ) :
    (scanColors n m).colors = (List.finRange MAX_COLORS).filter (isActive n m) := by
  simp [scanColors, foldl_scanStep_colors]

theorem scanColors_sum (n : Fin MAX_COLORS → ℕ) (m : ℕ) :
    (scanColors n m).averageReplicators
      = (((List.finRange MAX_COLORS).filter (isActive n m)).map n).sum % 2 ^ 64 := by
  unfold scanColors
  rw [foldl_scanStep_sum n m _ _ (by norm_num)]
  simp

theorem mem_scanColors (n : Fin MAX_COLORS → ℕ) (m : ℕ) (c : Fin MAX_COLORS) :
    c ∈ (scanColors n m).colors ↔ n c / m > MinReplicatorsLowerValue := by
  simp [scanColors_colors, isActive, List.mem_finRange]

theorem scanColors_nodup (n : Fin MAX_COLORS → ℕ) (m : ℕ) :
    (scanColors n m).colors.Nodup := by
  rw [scanColors_colors]
  exact (List.nodup_finRange MAX_COLORS).filter _

theorem crossAverage_eq (n : Fin MAX_COLORS → ℕ) (m : ℕ) :
    crossAverage n m
      = (((List.finRange MAX_COLORS).filter (isActive n m)).map n).sum % 2 ^ 64
        / ((List.finRange MAX_COLORS).filter (isActive n m)).length := by
  unfold crossAverage
  simp only [scanColors_colors, scanColors_sum]
  split_ifs with h
  · rfl
  · have h0 : (List.finRange MAX_COLORS).filter (isActive n m) = [] := by simpa using h
    simp [h0]

/-- Every collected color has accumulated more than `20 * numMeasurements` replicators. -/
theorem lower_lt_of_active (n : Fin MAX_COLORS → ℕ) (m : ℕ) (c : Fin MAX_COLORS)
    (h : n c / m > MinReplicatorsLowerValue) : MinReplicatorsLowerValue < n c := by
  have h1 : n c / m ≤ n c := Nat.div_le_self _ _
  omega

theorem sum_map_ge (n : Fin MAX_COLORS → ℕ) (k : ℕ) (l : List (Fin MAX_COLORS))
    (h : ∀ c ∈ l, k ≤ n c) : k * l.length ≤ (l.map n).sum := by
  induction l with
  | nil => simp
  | cons i l ih =>
    have h1 := h i (List.mem_cons_self _ _)
    have h2 := ih (fun c hc => h c (List.mem_cons_of_mem _ hc))
    simp only [List.length_cons, List.map_cons, List.sum_cons]
    linarith [Nat.mul_succ k l.length]

/-- With at least one collected color and a sum of the collected counts that fits into
64 bits the cross-average is positive. -/
theorem crossAverage_pos (n : Fin MAX_COLORS → ℕ) (m : ℕ) (c : Fin MAX_COLORS)
    (h : n c / m > MinReplicatorsLowerValue)
    (hfit : (((List.finRange MAX_COLORS).filter (isActive n m)).map n).sum < 2 ^ 64) :
    0 < crossAverage n m := by
  rw [crossAverage_eq, Nat.mod_eq_of_lt hfit]
  have hc : c ∈ (List.finRange MAX_COLORS).filter (isActive n m) := by
    simp [isActive, h, List.mem_finRange]
  have hlen : 0 < ((List.finRange MAX_COLORS).filter (isActive n m)).length :=
    List.length_pos_of_mem hc
  have hsum := sum_map_ge n 1 ((List.finRange MAX_COLORS).filter (isActive n m))
    (fun d hd => by
      have hd1 : n d / m > MinReplicatorsLowerValue := by
        simpa [isActive, List.mem_finRange] using hd
      have := lower_lt_of_active n m d hd1
      omega)
  exact Nat.div_pos (by omega) hlen

/-- Without a collected color the cross-average is zero. -/
theorem crossAverage_eq_zero (n : Fin MAX_COLORS → ℕ) (m : ℕ)
    (h : ∀ c, n c / m ≤ MinReplicatorsLowerValue) : crossAverage n m = 0 := by
  rw [crossAverage_eq]
  have h0 : (List.finRange MAX_COLORS).filter (isActive n m) = [] := by
    rw [List.filter_eq_nil_iff]
    intro c _
    simp only [isActive, decide_eq_true_eq, not_lt]
    exact h c
  simp [h0]

/-! ## The adjustment loop -/

theorem adaptColor_self (n : Fin MAX_COLORS → ℕ) (m a : ℕ) (f : Fin MAX_COLORS → ℚ)
    (c : Fin MAX_COLORS) : adaptColor n m a f c c = adaptedValue n m a c (f c) := by
  unfold adaptColor adaptedValue
  split_ifs <;> simp

theorem adaptColor_of_ne (n : Fin MAX_COLORS → ℕ) (m a : ℕ) (f : Fin MAX_COLORS → ℚ)
    (c d : Fin MAX_COLORS) (h : d ≠ c) : adaptColor n m a f c d = f d := by
  unfold adaptColor
  split_ifs <;> simp [Function.update_noteq h]

theorem foldl_adaptColor_of_not_mem (n : Fin MAX_COLORS → ℕ) (m a : ℕ)
    (l : List (Fin MAX_COLORS)) (f : Fin MAX_COLORS → ℚ) (d : Fin MAX_COLORS)
    (h : d ∉ l) : l.foldl (adaptColor n m a) f d = f d := by
  induction l generalizing f with
  | nil => rfl
  | cons c l ih =>
    rw [List.foldl_cons, ih _ (fun hd => h (List.mem_cons_of_mem _ hd))]
    exact adaptColor_of_ne n m a f c d (fun hd => h (hd ▸ List.mem_cons_self _ _))

theorem foldl_adaptColor_of_mem (n : Fin MAX_COLORS → ℕ) (m a : ℕ)
    (l : List (Fin MAX_COLORS)) (f : Fin MAX_COLORS → ℚ) (d : Fin MAX_COLORS)
    (hl : l.Nodup) (h : d ∈ l) :
    l.foldl (adaptColor n m a) f d = adaptedValue n m a d (f d) := by
  induction l generalizing f with
  | nil => simp at h
  | cons c l ih =>
    rw [List.foldl_cons]
    rw [List.nodup_cons] at hl
    rcases List.mem_cons.mp h with hd | hd
    · subst hd
      rw [foldl_adaptColor_of_not_mem n m a l _ d hl.1, adaptColor_self]
    · have hne : d ≠ c := fun e => hl.1 (e ▸ hd)
      rw [ih _ hl.2 hd, adaptColor_of_ne n m a f c d hne]

/-! ## The three outcomes of `doAdaptionIfNecessary` -/

theorem doAdaption_of_not_due (toInt : ℚ → ℤ) (s : State MAX_COLORS)
    (sim : SimulationController MAX_COLORS) (t : ℕ) (hlast : s._lastTimestep = some t)
    (hdue : ¬ uint64Sub sim.currentTimestep t
      > toUInt64 sim.parameters.cellMaxAgeBalancerInterval) :
    doAdaptionIfNecessary toInt s sim = some (accumulate s sim, sim) := by
  simp only [doAdaptionIfNecessary, accumulate, hlast, getCurrentTimestep,
    getSimulationParameters]
  rw [if_neg hdue]

theorem doAdaption_of_due_zero (toInt : ℚ → ℤ) (s : State MAX_COLORS)
    (sim : SimulationController MAX_COLORS) (t : ℕ) (hlast : s._lastTimestep = some t)
    (hdue : uint64Sub sim.currentTimestep t
      > toUInt64 sim.parameters.cellMaxAgeBalancerInterval)
    (havg : crossAverage (accumulate s sim)._numReplicators
      (accumulate s sim)._numMeasurements = 0) :
    doAdaptionIfNecessary toInt s sim
      = some (startNewMeasurement (accumulate s sim) sim, sim) := by
  simp only [accumulate] at havg
  simp only [doAdaptionIfNecessary, accumulate, hlast, getCurrentTimestep,
    getSimulationParameters]
  rw [if_pos hdue, havg]
  simp

theorem doAdaption_of_due_pos (toInt : ℚ → ℤ) (s : State MAX_COLORS)
    (sim : SimulationController MAX_COLORS) (t : ℕ) (hlast : s._lastTimestep = some t)
    (hdue : uint64Sub sim.currentTimestep t
      > toUInt64 sim.parameters.cellMaxAgeBalancerInterval)
    (havg : 0 < crossAverage (accumulate s sim)._numReplicators
      (accumulate s sim)._numMeasurements) :
    doAdaptionIfNecessary toInt s sim
      = some (startNewMeasurement
          { accumulate s sim with _cellMaxAge := adaptedCellMaxAge s sim }
          (setSimulationParameters sim
            (writtenParameters toInt sim (adaptedCellMaxAge s sim))),
        setSimulationParameters sim
          (writtenParameters toInt sim (adaptedCellMaxAge s sim))) := by
  simp only [accumulate] at havg
  simp only [doAdaptionIfNecessary, accumulate, hlast, getCurrentTimestep,
    getSimulationParameters, adaptedCellMaxAge, writtenParameters]
  rw [if_pos hdue, if_pos havg]

theorem doAdaption_of_none (toInt : ℚ → ℤ) (s : State MAX_COLORS)
    (sim : SimulationController MAX_COLORS) (hlast : s._lastTimestep = none) :
    doAdaptionIfNecessary toInt s sim = none := by
  simp only [doAdaptionIfNecessary, accumulate, hlast]

/-- The adjusted limit of a collected color. -/
theorem adaptedCellMaxAge_of_active (s : State MAX_COLORS)
    (sim : SimulationController MAX_COLORS) (c : Fin MAX_COLORS)
    (h : (accumulate s sim)._numReplicators c / (accumulate s sim)._numMeasurements
      > MinReplicatorsLowerValue) :
    adaptedCellMaxAge s sim c
      = adaptedValue (accumulate s sim)._numReplicators (accumulate s sim)._numMeasurements
          (crossAverage (accumulate s sim)._numReplicators
            (accumulate s sim)._numMeasurements) c (s._cellMaxAge c) := by
  unfold adaptedCellMaxAge
  exact foldl_adaptColor_of_mem _ _ _ _ _ c (scanColors_nodup _ _)
    ((mem_scanColors _ _ c).mpr h)

/-- The limit of a color that is not collected is not touched by the loop. -/
theorem adaptedCellMaxAge_of_inactive (s : State MAX_COLORS)
    (sim : SimulationController MAX_COLORS) (c : Fin MAX_COLORS)
    (h : ¬ (accumulate s sim)._numReplicators c / (accumulate s sim)._numMeasurements
      > MinReplicatorsLowerValue) :
    adaptedCellMaxAge s sim c = s._cellMaxAge c := by
  unfold adaptedCellMaxAge
  exact foldl_adaptColor_of_not_mem _ _ _ _ _ c
    (fun hc => h ((mem_scanColors _ _ c).mp hc))

/-! ## Re-initialization and `process` -/

theorem foldl_needs (p : Fin MAX_COLORS → Prop) [DecidablePred p]
    (l : List (Fin MAX_COLORS)) (b : Bool) :
    l.foldl (fun needs i => if p i then true else needs) b = true
      ↔ b = true ∨ ∃ i ∈ l, p i := by
  induction l generalizing b with
  | nil => simp
  | cons j l ih =>
    rw [List.foldl_cons, ih]
    by_cases hj : p j
    · simp [hj]
    · simp [hj]

theorem needsInitialization_iff (s : State MAX_COLORS)
    (sim : SimulationController MAX_COLORS) :
    needsInitialization s sim = true
      ↔ (∃ i, sim.parameters.cellMaxAge i ≠ s._lastCellMaxAge i)
        ∨ sim.parameters.cellMaxAgeBalancer ≠ s._lastAdaptiveCellMaxAge := by
  unfold needsInitialization
  simp only [getSimulationParameters]
  by_cases hf : sim.parameters.cellMaxAgeBalancer ≠ s._lastAdaptiveCellMaxAge
  · simp [hf]
  · rw [if_neg hf, foldl_needs]
    simp [hf, List.mem_finRange]

theorem needsInitialization_eq_false (s : State MAX_COLORS)
    (sim : SimulationController MAX_COLORS) (h : needsInitialization s sim = false) :
    (∀ i, sim.parameters.cellMaxAge i = s._lastCellMaxAge i)
      ∧ sim.parameters.cellMaxAgeBalancer = s._lastAdaptiveCellMaxAge := by
  have h1 : ¬ needsInitialization s sim = true := by simp [h]
  rw [needsInitialization_iff] at h1
  push_neg at h1
  exact h1

theorem initializeIfNecessary_of_needs (s : State MAX_COLORS)
    (sim : SimulationController MAX_COLORS) (h : needsInitialization s sim = true) :
    initializeIfNecessary s sim
      = { s with
          _cellMaxAge := fun i => (sim.parameters.cellMaxAge i : ℚ)
          _lastTimestep := some sim.currentTimestep
          _numReplicators := fun _ => 0
          _numMeasurements := 0 } := by
  simp [initializeIfNecessary, h, startNewMeasurement, getSimulationParameters,
    getCurrentTimestep]

theorem initializeIfNecessary_of_not_needs (s : State MAX_COLORS)
    (sim : SimulationController MAX_COLORS) (h : needsInitialization s sim = false) :
    initializeIfNecessary s sim = s := by
  simp [initializeIfNecessary, h]

theorem uint64Sub_self (a : ℕ) : uint64Sub a a = 0 := by
  simp [uint64Sub]

/-- Right after a window restart at the current tick the decision is not due. -/
theorem not_due_of_restart (a : ℕ) (i : ℤ) : ¬ uint64Sub a a > toUInt64 i := by
  simp [uint64Sub_self]

theorem process_of_disabled (toInt : ℚ → ℤ) (s : State MAX_COLORS)
    (sim : SimulationController MAX_COLORS)
    (h : sim.parameters.cellMaxAgeBalancer = false) :
    process toInt s sim = some (saveLastState s sim, sim) := by
  simp [process, getSimulationParameters, h]

theorem process_of_enabled (toInt : ℚ → ℤ) (s : State MAX_COLORS)
    (sim : SimulationController MAX_COLORS)
    (h : sim.parameters.cellMaxAgeBalancer = true) (s1 : State MAX_COLORS)
    (sim1 : SimulationController MAX_COLORS)
    (hd : doAdaptionIfNecessary toInt (initializeIfNecessary s sim) sim = some (s1, sim1)) :
    process toInt s sim = some (saveLastState s1 sim1, sim1) := by
  simp [process, getSimulationParameters, h, hd]

/-- An enabled call that re-initializes: the working limits are the store's, the window
starts at the current tick and holds exactly this tick's measurement. -/
theorem process_of_needs (toInt : ℚ → ℤ) (s : State MAX_COLORS)
    (sim : SimulationController MAX_COLORS)
    (h : sim.parameters.cellMaxAgeBalancer = true)
    (hn : needsInitialization s sim = true) :
    process toInt s sim
      = some ({ _lastCellMaxAge := fun i => sim.parameters.cellMaxAge i
                _lastAdaptiveCellMaxAge := sim.parameters.cellMaxAgeBalancer
                _cellMaxAge := fun i => (sim.parameters.cellMaxAge i : ℚ)
                _numReplicators := fun i => 0 + sim.numSelfReplicators i
                _numMeasurements := 0 + 1
                _lastTimestep := some sim.currentTimestep }, sim) := by
  have hd := doAdaption_of_not_due toInt (initializeIfNecessary s sim) sim
    sim.currentTimestep (by rw [initializeIfNecessary_of_needs s sim hn])
    (not_due_of_restart _ _)
  rw [process_of_enabled toInt s sim h _ _ hd, initializeIfNecessary_of_needs s sim hn]
  rfl

/-! ## Machine arithmetic and the remaining outcomes of `process` -/

theorem uint64Sub_of_le (a b : ℕ) (h : b ≤ a) (ha : a < 2 ^ 64) : uint64Sub a b = a - b := by
  unfold uint64Sub
  have h1 : a + 2 ^ 64 - b = (a - b) + 2 ^ 64 := by omega
  rw [h1, Nat.add_mod_right]
  exact Nat.mod_eq_of_lt (by omega)

theorem uint64Sub_lt (a b : ℕ) : uint64Sub a b < 2 ^ 64 :=
  Nat.mod_lt _ (by norm_num)

theorem toUInt64_of_nonneg (i : ℤ) (h0 : 0 ≤ i) (h1 : i < 2 ^ 64) :
    ((toUInt64 i : ℕ) : ℤ) = i := by
  unfold toUInt64
  rw [Int.emod_eq_of_lt h0 h1]
  exact Int.toNat_of_nonneg h0

theorem toUInt64_of_neg (i : ℤ) (h0 : i < 0) (h1 : -2 ^ 64 ≤ i) :
    ((toUInt64 i : ℕ) : ℤ) = i + 2 ^ 64 := by
  unfold toUInt64
  have h2 : i % 2 ^ 64 = i + 2 ^ 64 := by
    rw [← Int.add_emod_self]
    exact Int.emod_eq_of_lt (by linarith) (by linarith)
  rw [h2]
  exact Int.toNat_of_nonneg (by linarith)

theorem toUInt64_zero : toUInt64 0 = 0 := by
  simp [toUInt64]

/-- An enabled call without re-initialization in which the decision is not due. -/
theorem process_of_not_due (toInt : ℚ → ℤ) (s : State MAX_COLORS)
    (sim : SimulationController MAX_COLORS) (t : ℕ)
    (h : sim.parameters.cellMaxAgeBalancer = true)
    (hlast : (initializeIfNecessary s sim)._lastTimestep = some t)
    (hdue : ¬ uint64Sub sim.currentTimestep t
      > toUInt64 sim.parameters.cellMaxAgeBalancerInterval) :
    process toInt s sim
      = some (saveLastState (accumulate (initializeIfNecessary s sim) sim) sim, sim) :=
  process_of_enabled toInt s sim h _ _
    (doAdaption_of_not_due toInt _ sim t hlast hdue)

/-- An enabled call in which the decision is due and no color is collected. -/
theorem process_of_due_zero (toInt : ℚ → ℤ) (s : State MAX_COLORS)
    (sim : SimulationController MAX_COLORS) (t : ℕ)
    (h : sim.parameters.cellMaxAgeBalancer = true)
    (hlast : (initializeIfNecessary s sim)._lastTimestep = some t)
    (hdue : uint64Sub sim.currentTimestep t
      > toUInt64 sim.parameters.cellMaxAgeBalancerInterval)
    (havg : crossAverage (accumulate (initializeIfNecessary s sim) sim)._numReplicators
      (accumulate (initializeIfNecessary s sim) sim)._numMeasurements = 0) :
    process toInt s sim
      = some (saveLastState
          (startNewMeasurement (accumulate (initializeIfNecessary s sim) sim) sim) sim,
        sim) :=
  process_of_enabled toInt s sim h _ _
    (doAdaption_of_due_zero toInt _ sim t hlast hdue havg)

/-- An enabled call in which the decision is due and some color is collected. -/
theorem process_of_due_pos (toInt : ℚ → ℤ) (s : State MAX_COLORS)
    (sim : SimulationController MAX_COLORS) (t : ℕ)
    (h : sim.parameters.cellMaxAgeBalancer = true)
    (hlast : (initializeIfNecessary s sim)._lastTimestep = some t)
    (hdue : uint64Sub sim.currentTimestep t
      > toUInt64 sim.parameters.cellMaxAgeBalancerInterval)
    (havg : 0 < crossAverage (accumulate (initializeIfNecessary s sim) sim)._numReplicators
      (accumulate (initializeIfNecessary s sim) sim)._numMeasurements) :
    process toInt s sim
      = some (saveLastState
          (startNewMeasurement
            { accumulate (initializeIfNecessary s sim) sim with
              _cellMaxAge := adaptedCellMaxAge (initializeIfNecessary s sim) sim }
            (setSimulationParameters sim
              (writtenParameters toInt sim
                (adaptedCellMaxAge (initializeIfNecessary s sim) sim))))
          (setSimulationParameters sim
            (writtenParameters toInt sim
              (adaptedCellMaxAge (initializeIfNecessary s sim) sim))),
        setSimulationParameters sim
          (writtenParameters toInt sim
            (adaptedCellMaxAge (initializeIfNecessary s sim) sim))) :=
  process_of_enabled toInt s sim h _ _
    (doAdaption_of_due_pos toInt _ sim t hlast hdue havg)

/-- In an enabled call the window start is set after the re-initialization check as soon
as it is set whenever the snapshot flag is true. -/
theorem lastTimestep_after_initialize (s : State MAX_COLORS)
    (sim : SimulationController MAX_COLORS)
    (h : sim.parameters.cellMaxAgeBalancer = true)
    (hinv : s._lastAdaptiveCellMaxAge = true → s._lastTimestep ≠ none) :
    ∃ t, (initializeIfNecessary s sim)._lastTimestep = some t := by
  cases hn : needsInitialization s sim with
  | true => exact ⟨sim.currentTimestep, by rw [initializeIfNecessary_of_needs s sim hn]⟩
  | false =>
    rw [initializeIfNecessary_of_not_needs s sim hn]
    have hf := (needsInitialization_eq_false s sim hn).2
    have h1 := hinv (by rw [← hf, h])
    exact Option.ne_none_iff_exists'.mp h1

/-- Whether the decision step runs or not, an enabled call returns once the window start
is set, and the decision step has run exactly when the measurement counter is zero on
return. -/
theorem process_enabled_cases (toInt : ℚ → ℤ) (s : State MAX_COLORS)
    (sim : SimulationController MAX_COLORS) (t : ℕ)
    (h : sim.parameters.cellMaxAgeBalancer = true)
    (hlast : (initializeIfNecessary s sim)._lastTimestep = some t) :
    ∃ s1 sim1, process toInt s sim = some (s1, sim1)
      ∧ s1._lastAdaptiveCellMaxAge = true
      ∧ s1._lastTimestep ≠ none
      ∧ (uint64Sub sim.currentTimestep t
            > toUInt64 sim.parameters.cellMaxAgeBalancerInterval
          → s1._numMeasurements = 0 ∧ s1._lastTimestep = some sim.currentTimestep
            ∧ ∀ c, s1._numReplicators c = 0)
      ∧ (¬ uint64Sub sim.currentTimestep t
            > toUInt64 sim.parameters.cellMaxAgeBalancerInterval
          → s1._numMeasurements = (initializeIfNecessary s sim)._numMeasurements + 1
            ∧ s1._lastTimestep = some t
            ∧ s1._cellMaxAge = (initializeIfNecessary s sim)._cellMaxAge
            ∧ (∀ c, s1._numReplicators c
                = (initializeIfNecessary s sim)._numReplicators c
                  + sim.numSelfReplicators c)
            ∧ sim1 = sim) := by
  by_cases hdue : uint64Sub sim.currentTimestep t
      > toUInt64 sim.parameters.cellMaxAgeBalancerInterval
  · by_cases havg : 0 < crossAverage
        (accumulate (initializeIfNecessary s sim) sim)._numReplicators
        (accumulate (initializeIfNecessary s sim) sim)._numMeasurements
    · refine ⟨_, _, process_of_due_pos toInt s sim t h hlast hdue havg, ?_, ?_, ?_, ?_⟩
      · simpa [saveLastState, getSimulationParameters, setSimulationParameters,
          writtenParameters] using h
      · simp [saveLastState, startNewMeasurement]
      · intro _
        exact ⟨rfl, rfl, fun _ => rfl⟩
      · intro hn
        exact absurd hdue hn
    · have havg0 : crossAverage
          (accumulate (initializeIfNecessary s sim) sim)._numReplicators
          (accumulate (initializeIfNecessary s sim) sim)._numMeasurements = 0 := by omega
      refine ⟨_, _, process_of_due_zero toInt s sim t h hlast hdue havg0, ?_, ?_, ?_, ?_⟩
      · simpa [saveLastState, getSimulationParameters] using h
      · simp [saveLastState, startNewMeasurement]
      · intro _
        exact ⟨rfl, rfl, fun _ => rfl⟩
      · intro hn
        exact absurd hdue hn
  · refine ⟨_, _, process_of_not_due toInt s sim t h hlast hdue, ?_, ?_, ?_, ?_⟩
    · simpa [saveLastState, getSimulationParameters] using h
    · simp [saveLastState, accumulate, hlast]
    · intro hd
      exact absurd hd hdue
    · intro _
      exact ⟨rfl, hlast, rfl, fun _ => rfl, rfl⟩

/-- For a positive number of measurements the test of line 70 holds exactly from
`21 * numMeasurements` replicators on. -/
theorem active_iff_mul_le (n : Fin MAX_COLORS → ℕ) (m : ℕ) (c : Fin MAX_COLORS)
    (hm : 0 < m) : n c / m > MinReplicatorsLowerValue ↔ 21 * m ≤ n c := by
  have h := Nat.le_div_iff_mul_le hm (x := 21) (y := n c)
  unfold MinReplicatorsLowerValue
  omega

/-- Inversion of `process`: the five ways in which a call returns. -/
theorem process_cases (toInt : ℚ → ℤ) (s s1 : State MAX_COLORS)
    (sim sim1 : SimulationController MAX_COLORS)
    (h : process toInt s sim = some (s1, sim1)) :
    (sim.parameters.cellMaxAgeBalancer = false
        ∧ s1 = saveLastState s sim ∧ sim1 = sim)
    ∨ (sim.parameters.cellMaxAgeBalancer = true ∧ needsInitialization s sim = true
        ∧ s1 = { _lastCellMaxAge := fun i => sim.parameters.cellMaxAge i
                 _lastAdaptiveCellMaxAge := sim.parameters.cellMaxAgeBalancer
                 _cellMaxAge := fun i => (sim.parameters.cellMaxAge i : ℚ)
                 _numReplicators := fun i => 0 + sim.numSelfReplicators i
                 _numMeasurements := 0 + 1
                 _lastTimestep := some sim.currentTimestep }
        ∧ sim1 = sim)
    ∨ (sim.parameters.cellMaxAgeBalancer = true ∧ needsInitialization s sim = false
        ∧ ∃ t, s._lastTimestep = some t
          ∧ ((¬ uint64Sub sim.currentTimestep t
                > toUInt64 sim.parameters.cellMaxAgeBalancerInterval
              ∧ s1 = saveLastState (accumulate s sim) sim ∧ sim1 = sim)
            ∨ (uint64Sub sim.currentTimestep t
                > toUInt64 sim.parameters.cellMaxAgeBalancerInterval
              ∧ crossAverage (accumulate s sim)._numReplicators
                  (accumulate s sim)._numMeasurements = 0
              ∧ s1 = saveLastState (startNewMeasurement (accumulate s sim) sim) sim
              ∧ sim1 = sim)
            ∨ (uint64Sub sim.currentTimestep t
                > toUInt64 sim.parameters.cellMaxAgeBalancerInterval
              ∧ 0 < crossAverage (accumulate s sim)._numReplicators
                  (accumulate s sim)._numMeasurements
              ∧ s1 = saveLastState
                  (startNewMeasurement
                    { accumulate s sim with _cellMaxAge := adaptedCellMaxAge s sim }
                    (setSimulationParameters sim
                      (writtenParameters toInt sim (adaptedCellMaxAge s sim))))
                  (setSimulationParameters sim
                    (writtenParameters toInt sim (adaptedCellMaxAge s sim)))
              ∧ sim1 = setSimulationParameters sim
                  (writtenParameters toInt sim (adaptedCellMaxAge s sim))))) := by
  cases hen : sim.parameters.cellMaxAgeBalancer with
  | false =>
    rw [process_of_disabled toInt s sim hen] at h
    simp only [Option.some.injEq, Prod.mk.injEq] at h
    exact Or.inl ⟨rfl, h.1.symm, h.2.symm⟩
  | true =>
    right
    cases hn : needsInitialization s sim with
    | true =>
      rw [process_of_needs toInt s sim hen hn] at h
      simp only [Option.some.injEq, Prod.mk.injEq] at h
      exact Or.inl ⟨rfl, rfl, by rw [← h.1, hen], h.2.symm⟩
    | false =>
      right
      refine ⟨rfl, rfl, ?_⟩
      have h0 := initializeIfNecessary_of_not_needs s sim hn
      cases hl : s._lastTimestep with
      | none =>
        have hd := doAdaption_of_none toInt s sim hl
        simp [process, getSimulationParameters, hen, h0, hd] at h
      | some t =>
        refine ⟨t, rfl, ?_⟩
        have hl0 : (initializeIfNecessary s sim)._lastTimestep = some t := by rw [h0, hl]
        by_cases hdue : uint64Sub sim.currentTimestep t
            > toUInt64 sim.parameters.cellMaxAgeBalancerInterval
        · by_cases havg : 0 < crossAverage (accumulate s sim)._numReplicators
              (accumulate s sim)._numMeasurements
          · rw [process_of_due_pos toInt s sim t hen hl0 hdue (by rw [h0]; exact havg),
              h0] at h
            simp only [Option.some.injEq, Prod.mk.injEq] at h
            exact Or.inr (Or.inr ⟨hdue, havg, h.1.symm, h.2.symm⟩)
          · have havg0 : crossAverage (accumulate s sim)._numReplicators
                (accumulate s sim)._numMeasurements = 0 := by omega
            rw [process_of_due_zero toInt s sim t hen hl0 hdue (by rw [h0]; exact havg0),
              h0] at h
            simp only [Option.some.injEq, Prod.mk.injEq] at h
            exact Or.inr (Or.inl ⟨hdue, havg0, h.1.symm, h.2.symm⟩)
        · rw [process_of_not_due toInt s sim t hen hl0 hdue, h0] at h
          simp only [Option.some.injEq, Prod.mk.injEq] at h
          exact Or.inl ⟨hdue, h.1.symm, h.2.symm⟩

/-! ## Invariants of the reachable states -/

/-- The three possible effects of the loop of lines 83-90 on one working limit. -/
theorem adaptedCellMaxAge_cases (s : State MAX_COLORS)
    (sim : SimulationController MAX_COLORS) (c : Fin MAX_COLORS) :
    adaptedCellMaxAge s sim c = s._cellMaxAge c
      ∨ adaptedCellMaxAge s sim c = s._cellMaxAge c / AdaptionFactor
      ∨ (s._cellMaxAge c < MaxCellAge
          ∧ adaptedCellMaxAge s sim c = s._cellMaxAge c * AdaptionFactor) := by
  by_cases h : (accumulate s sim)._numReplicators c / (accumulate s sim)._numMeasurements
      > MinReplicatorsLowerValue
  · rw [adaptedCellMaxAge_of_active s sim c h]
    unfold adaptedValue
    split_ifs with h1 h2
    · exact Or.inr (Or.inl rfl)
    · exact Or.inr (Or.inr ⟨h2.1, rfl⟩)
    · exact Or.inl rfl
  · exact Or.inl (adaptedCellMaxAge_of_inactive s sim c h)

/-- After every returning call the working limits are the store's integers (after a
re-initialization), the old working limits, or the adjusted ones. -/
theorem process_cellMaxAge_cases (toInt : ℚ → ℤ) (s s1 : State MAX_COLORS)
    (sim sim1 : SimulationController MAX_COLORS)
    (h : process toInt s sim = some (s1, sim1)) :
    (sim.parameters.cellMaxAgeBalancer = true ∧ needsInitialization s sim = true
        ∧ s1._cellMaxAge = fun i => (sim.parameters.cellMaxAge i : ℚ))
      ∨ s1._cellMaxAge = s._cellMaxAge
      ∨ s1._cellMaxAge = adaptedCellMaxAge s sim := by
  rcases process_cases toInt s s1 sim sim1 h with
    ⟨_, h1, _⟩ | ⟨he, hn, h1, _⟩ | ⟨_, _, t, _, ⟨_, h1, _⟩ | ⟨_, _, h1, _⟩ | ⟨_, _, h1, _⟩⟩
  · exact Or.inr (Or.inl (by rw [h1]; rfl))
  · exact Or.inl ⟨he, hn, by rw [h1]⟩
  · exact Or.inr (Or.inl (by rw [h1]; rfl))
  · exact Or.inr (Or.inl (by rw [h1]; rfl))
  · exact Or.inr (Or.inr (by rw [h1]; rfl))

/-- After every returning call the snapshot equals the store as it is at return. -/
theorem process_snapshot (toInt : ℚ → ℤ) (s s1 : State MAX_COLORS)
    (sim sim1 : SimulationController MAX_COLORS)
    (h : process toInt s sim = some (s1, sim1)) :
    s1._lastCellMaxAge = sim1.parameters.cellMaxAge
      ∧ s1._lastAdaptiveCellMaxAge = sim1.parameters.cellMaxAgeBalancer
      ∧ sim1.parameters.cellMaxAgeBalancer = sim.parameters.cellMaxAgeBalancer
      ∧ sim1.parameters.cellMaxAgeBalancerInterval
          = sim.parameters.cellMaxAgeBalancerInterval := by
  rcases process_cases toInt s s1 sim sim1 h with
    ⟨_, h1, h2⟩ | ⟨_, _, h1, h2⟩
      | ⟨_, _, t, _, ⟨_, h1, h2⟩ | ⟨_, _, h1, h2⟩ | ⟨_, _, h1, h2⟩⟩ <;>
    subst h1 <;> subst h2 <;> exact ⟨rfl, rfl, rfl, rfl⟩

/-- The snapshot holds the conversion of the working limits whenever the snapshot flag
is true: established by a re-initialization and kept by every call. -/
theorem process_synced (toInt : ℚ → ℤ) (htoInt : ∀ k : ℤ, toInt (k : ℚ) = k)
    (s s1 : State MAX_COLORS) (sim sim1 : SimulationController MAX_COLORS)
    (h : process toInt s sim = some (s1, sim1))
    (hs : needsInitialization s sim = false → s._lastAdaptiveCellMaxAge = true →
      ∀ i, s._lastCellMaxAge i = toInt (s._cellMaxAge i)) :
    s1._lastAdaptiveCellMaxAge = true → ∀ i, s1._lastCellMaxAge i = toInt (s1._cellMaxAge i) := by
  rcases process_cases toInt s s1 sim sim1 h with
    ⟨hd, h1, h2⟩ | ⟨_, _, h1, h2⟩
      | ⟨he, hn, t, _, ⟨_, h1, h2⟩ | ⟨_, _, h1, h2⟩ | ⟨_, _, h1, h2⟩⟩
  · intro hf
    rw [h1] at hf
    simp [saveLastState, getSimulationParameters, hd] at hf
  · intro _ i
    rw [h1]
    exact (htoInt _).symm
  · intro _ i
    have hf := needsInitialization_eq_false s sim hn
    rw [h1]
    show sim.parameters.cellMaxAge i = toInt (s._cellMaxAge i)
    rw [hf.1 i]
    exact hs hn (by rw [← hf.2, he]) i
  · intro _ i
    have hf := needsInitialization_eq_false s sim hn
    rw [h1]
    show sim.parameters.cellMaxAge i = toInt (s._cellMaxAge i)
    rw [hf.1 i]
    exact hs hn (by rw [← hf.2, he]) i
  · intro _ i
    rw [h1]
    rfl

theorem synced_of_reached (toInt : ℚ → ℤ) (htoInt : ∀ k : ℤ, toInt (k : ℚ) = k)
    (ok : SimulationParameters MAX_COLORS → Prop) (s : State MAX_COLORS)
    (h : ReachedAfterInit toInt ok s) :
    s._lastAdaptiveCellMaxAge = true → ∀ i, s._lastCellMaxAge i = toInt (s._cellMaxAge i) := by
  induction h with
  | init s sim s1 sim1 _ hn _ hp =>
    exact process_synced toInt htoInt s s1 sim sim1 hp (fun hn0 => by simp [hn] at hn0)
  | step s sim s1 sim1 _ _ hp ih =>
    exact process_synced toInt htoInt s s1 sim sim1 hp (fun _ => ih)

theorem adaptedCellMaxAge_pos (s : State MAX_COLORS) (sim : SimulationController MAX_COLORS)
    (c : Fin MAX_COLORS) (h : 0 < s._cellMaxAge c) : 0 < adaptedCellMaxAge s sim c := by
  rcases adaptedCellMaxAge_cases s sim c with h1 | h1 | ⟨_, h1⟩ <;> rw [h1]
  · exact h
  · exact div_pos h (by norm_num [AdaptionFactor])
  · exact mul_pos h (by norm_num [AdaptionFactor])

/-- The count of an inactive color does not enter the cross-average. -/
theorem crossAverage_update_inactive (n : Fin MAX_COLORS → ℕ) (m k : ℕ) (c : Fin MAX_COLORS)
    (hc : ¬ n c / m > MinReplicatorsLowerValue) (hk : ¬ k / m > MinReplicatorsLowerValue) :
    crossAverage (Function.update n c k) m = crossAverage n m := by
  have hf : (List.finRange MAX_COLORS).filter (isActive (Function.update n c k) m)
      = (List.finRange MAX_COLORS).filter (isActive n m) := by
    apply List.filter_congr
    intro i _
    by_cases hi : i = c
    · subst hi
      simp [isActive, hc, hk]
    · simp [isActive, Function.update_noteq hi]
  have hm : ((List.finRange MAX_COLORS).filter (isActive n m)).map (Function.update n c k)
      = ((List.finRange MAX_COLORS).filter (isActive n m)).map n := by
    apply List.map_congr_left
    intro i hi
    have hi1 : n i / m > MinReplicatorsLowerValue := by
      simpa [isActive, List.mem_finRange] using hi
    have hne : i ≠ c := fun e => hc (e ▸ hi1)
    exact Function.update_noteq hne _ _
  rw [crossAverage_eq, crossAverage_eq, hf, hm]

/-! ## Closed-loop runs -/

/-- A call returns as soon as the window start is set whenever the snapshot flag is
true, and it re-establishes that condition. -/
theorem process_returns (toInt : ℚ → ℤ) (s : State MAX_COLORS)
    (sim : SimulationController MAX_COLORS)
    (hinv : s._lastAdaptiveCellMaxAge = true → s._lastTimestep ≠ none) :
    ∃ s1 sim1, process toInt s sim = some (s1, sim1)
      ∧ (s1._lastAdaptiveCellMaxAge = true → s1._lastTimestep ≠ none) := by
  cases hen : sim.parameters.cellMaxAgeBalancer with
  | false =>
    refine ⟨_, _, process_of_disabled toInt s sim hen, ?_⟩
    intro h
    simp [saveLastState, getSimulationParameters, hen] at h
  | true =>
    obtain ⟨t, ht⟩ := lastTimestep_after_initialize s sim hen hinv
    obtain ⟨s1, sim1, hp, _, hset, _, _⟩ := process_enabled_cases toInt s sim t hen ht
    exact ⟨s1, sim1, hp, fun _ => hset⟩

theorem adaptedCellMaxAge_lower (s : State MAX_COLORS) (sim : SimulationController MAX_COLORS)
    (c : Fin MAX_COLORS) (h : 0 < s._cellMaxAge c) :
    s._cellMaxAge c * (10 / 11) ≤ adaptedCellMaxAge s sim c := by
  rcases adaptedCellMaxAge_cases s sim c with h1 | h1 | ⟨_, h1⟩ <;> rw [h1]
  · linarith
  · have h2 : s._cellMaxAge c / AdaptionFactor = s._cellMaxAge c * (10 / 11) := by
      unfold AdaptionFactor
      ring
    rw [h2]
  · unfold AdaptionFactor
    linarith

/-- One call of a closed-loop run: no re-initialization takes place, each working limit
loses at most the factor 1.1, and the store holds its old integers or the conversion of
the new working limits. -/
theorem process_closed_loop_step (toInt : ℚ → ℤ) (s : State MAX_COLORS)
    (sim : SimulationController MAX_COLORS)
    (hsnap : s._lastCellMaxAge = sim.parameters.cellMaxAge)
    (hflag : s._lastAdaptiveCellMaxAge = sim.parameters.cellMaxAgeBalancer)
    (hinv : s._lastAdaptiveCellMaxAge = true → s._lastTimestep ≠ none)
    (hpos : ∀ c, 0 < s._cellMaxAge c) :
    ∃ s1 sim1, process toInt s sim = some (s1, sim1)
      ∧ s1._lastCellMaxAge = sim1.parameters.cellMaxAge
      ∧ s1._lastAdaptiveCellMaxAge = sim1.parameters.cellMaxAgeBalancer
      ∧ (s1._lastAdaptiveCellMaxAge = true → s1._lastTimestep ≠ none)
      ∧ (∀ c, s._cellMaxAge c * (10 / 11) ≤ s1._cellMaxAge c)
      ∧ (∀ c, sim1.parameters.cellMaxAge c = sim.parameters.cellMaxAge c
          ∨ sim1.parameters.cellMaxAge c = toInt (s1._cellMaxAge c)) := by
  obtain ⟨s1, sim1, hp, hinv1⟩ := process_returns toInt s sim hinv
  have hsn := process_snapshot toInt s s1 sim sim1 hp
  have hnot : ¬ needsInitialization s sim = true := by
    rw [needsInitialization_iff]
    push_neg
    exact ⟨fun i => by rw [hsnap], hflag.symm⟩
  refine ⟨s1, sim1, hp, hsn.1, hsn.2.1, hinv1, ?_, ?_⟩
  · intro c
    rcases process_cellMaxAge_cases toInt s s1 sim sim1 hp with ⟨_, hn, _⟩ | h1 | h1
    · exact absurd hn hnot
    · rw [h1]
      linarith [hpos c]
    · rw [h1]
      exact adaptedCellMaxAge_lower s sim c (hpos c)
  · intro c
    rcases process_cases toInt s s1 sim sim1 hp with
      ⟨_, _, h2⟩ | ⟨_, _, _, h2⟩
        | ⟨_, _, t, _, ⟨_, _, h2⟩ | ⟨_, _, _, h2⟩ | ⟨_, _, h1, h2⟩⟩
    · exact Or.inl (by rw [h2])
    · exact Or.inl (by rw [h2])
    · exact Or.inl (by rw [h2])
    · exact Or.inl (by rw [h2])
    · right
      rw [h1, h2]
      rfl

theorem runTicks_lower_bound (toInt : ℚ → ℤ) (inputs : List (ℕ × (Fin MAX_COLORS → ℕ))) :
    ∀ (s : State MAX_COLORS) (sim : SimulationController MAX_COLORS),
      s._lastCellMaxAge = sim.parameters.cellMaxAge →
      s._lastAdaptiveCellMaxAge = sim.parameters.cellMaxAgeBalancer →
      (s._lastAdaptiveCellMaxAge = true → s._lastTimestep ≠ none) →
      (∀ c, 0 < s._cellMaxAge c) →
      ∃ s1 sim1, runTicks toInt s sim inputs = some (s1, sim1)
        ∧ (∀ c, s._cellMaxAge c * (10 / 11) ^ inputs.length ≤ s1._cellMaxAge c)
        ∧ (∀ c, sim1.parameters.cellMaxAge c = sim.parameters.cellMaxAge c
            ∨ ∃ q : ℚ, s._cellMaxAge c * (10 / 11) ^ inputs.length ≤ q
                ∧ sim1.parameters.cellMaxAge c = toInt q) := by
  induction inputs with
  | nil =>
    intro s sim _ _ _ _
    exact ⟨s, sim, rfl, fun c => by simp, fun c => Or.inl rfl⟩
  | cons input rest ih =>
    intro s sim hsnap hflag hinv hpos
    obtain ⟨s1, sim1, hp, hsnap1, hflag1, hinv1, hlow, hstore⟩ :=
      process_closed_loop_step toInt s
        { sim with currentTimestep := input.1, numSelfReplicators := input.2 }
        hsnap hflag hinv hpos
    have hpos1 : ∀ c, 0 < s1._cellMaxAge c := fun c =>
      lt_of_lt_of_le (mul_pos (hpos c) (by norm_num)) (hlow c)
    obtain ⟨s2, sim2, hr, hlow2, hstore2⟩ := ih s1 sim1 hsnap1 hflag1 hinv1 hpos1
    have hpow : ∀ c, s._cellMaxAge c * (10 / 11) ^ (input :: rest).length
        ≤ s1._cellMaxAge c * (10 / 11) ^ rest.length := by
      intro c
      have h1 : (0 : ℚ) ≤ (10 / 11) ^ rest.length := by positivity
      have h2 := mul_le_mul_of_nonneg_right (hlow c) h1
      calc s._cellMaxAge c * (10 / 11) ^ (input :: rest).length
          = s._cellMaxAge c * (10 / 11) * (10 / 11) ^ rest.length := by
            rw [List.length_cons, pow_succ]
            ring
        _ ≤ s1._cellMaxAge c * (10 / 11) ^ rest.length := h2
    have hle1 : ∀ c, s1._cellMaxAge c * (10 / 11) ^ rest.length ≤ s1._cellMaxAge c := by
      intro c
      have h1 : ((10 : ℚ) / 11) ^ rest.length ≤ 1 := pow_le_one₀ (by norm_num) (by norm_num)
      have h2 := mul_le_mul_of_nonneg_left h1 (le_of_lt (hpos1 c))
      linarith
    refine ⟨s2, sim2, ?_, fun c => le_trans (hpow c) (hlow2 c), ?_⟩
    · simp only [runTicks, hp]
      exact hr
    · intro c
      rcases hstore2 c with h2 | ⟨q, hq, h2⟩
      · rcases hstore c with h1 | h1
        · exact Or.inl (by rw [h2, h1])
        · exact Or.inr ⟨s1._cellMaxAge c, le_trans (hpow c) (hle1 c), by rw [h2, h1]⟩
      · exact Or.inr ⟨q, le_trans (hpow c) hq, h2⟩

/-- One call of the shrinking run: right after a window restart at tick `T`, with
interval 0 and no external edit, the call at tick `T + 1` reporting 130 and 50
replicators decides, divides the limit of color 0 by 1.1 and restarts the window. -/
theorem process_shrink_step (s : State 7) (sim : SimulationController 7) (T : ℕ)
    (hT : T + 1 < 2 ^ 64) (hlast : s._lastTimestep = some T)
    (hrep : s._numReplicators = fun _ => 0) (hm : s._numMeasurements = 0)
    (hsnap : s._lastCellMaxAge = sim.parameters.cellMaxAge)
    (hflag : s._lastAdaptiveCellMaxAge = true)
    (hen : sim.parameters.cellMaxAgeBalancer = true)
    (hint : sim.parameters.cellMaxAgeBalancerInterval = 0) :
    ∃ s1 sim1, process (fun q => ⌊q⌋) s
          { sim with currentTimestep := T + 1
                     numSelfReplicators := ![130, 50, 0, 0, 0, 0, 0] }
        = some (s1, sim1)
      ∧ s1._lastTimestep = some (T + 1)
      ∧ s1._numReplicators = (fun _ => 0)
      ∧ s1._numMeasurements = 0
      ∧ s1._lastCellMaxAge = sim1.parameters.cellMaxAge
      ∧ s1._lastAdaptiveCellMaxAge = true
      ∧ sim1.parameters.cellMaxAgeBalancer = true
      ∧ sim1.parameters.cellMaxAgeBalancerInterval = 0
      ∧ s1._cellMaxAge 0 = s._cellMaxAge 0 / (11 / 10) := by
  obtain ⟨snap, flag, w, rep, m, last⟩ := s
  simp only at hlast hrep hm hsnap hflag
  subst hlast hrep hm hsnap hflag
  have hn : needsInitialization
      (⟨sim.parameters.cellMaxAge, true, w, fun _ => 0, 0, some T⟩ : State 7)
      { sim with currentTimestep := T + 1
                 numSelfReplicators := ![130, 50, 0, 0, 0, 0, 0] } = false := by
    cases h : needsInitialization
      (⟨sim.parameters.cellMaxAge, true, w, fun _ => 0, 0, some T⟩ : State 7)
      { sim with currentTimestep := T + 1
                 numSelfReplicators := ![130, 50, 0, 0, 0, 0, 0] } with
    | false => rfl
    | true =>
      rw [needsInitialization_iff] at h
      simp [hen] at h
  have h0 := initializeIfNecessary_of_not_needs _ _ hn
  have hdue : uint64Sub (T + 1) T > toUInt64 sim.parameters.cellMaxAgeBalancerInterval := by
    rw [hint, toUInt64_zero, uint64Sub_of_le _ _ (by omega) hT]
    omega
  have hact : (0 : ℕ) + (![130, 50, 0, 0, 0, 0, 0] : Fin 7 → ℕ) 0 = 130 := by decide
  have havg : crossAverage (fun i : Fin 7 => 0 + (![130, 50, 0, 0, 0, 0, 0] : Fin 7 → ℕ) i)
      (0 + 1) = 90 := by decide
  have hp := process_of_due_pos (fun q => ⌊q⌋)
    (⟨sim.parameters.cellMaxAge, true, w, fun _ => 0, 0, some T⟩ : State 7)
    { sim with currentTimestep := T + 1
               numSelfReplicators := ![130, 50, 0, 0, 0, 0, 0] } T hen
    (by rw [h0]) hdue (by rw [h0]; simp only [accumulate]; rw [havg]; norm_num)
  refine ⟨_, _, hp, rfl, rfl, rfl, rfl, hen, hen, hint, ?_⟩
  rw [h0]
  show adaptedCellMaxAge _ _ 0 = w 0 / (11 / 10)
  rw [adaptedCellMaxAge_of_active _ _ 0 (by simp only [accumulate]; decide)]
  simp only [accumulate]
  rw [havg]
  simp only [adaptedValue, toDouble, hact]
  norm_num [MinReplicatorsUpperValue, AdaptionRatio, AdaptionFactor]

theorem runTicks_shrinks (j : ℕ) :
    ∀ (T : ℕ) (s : State 7) (sim : SimulationController 7),
      T + j < 2 ^ 64 → s._lastTimestep = some T →
      (s._numReplicators = fun _ => 0) → s._numMeasurements = 0 →
      s._lastCellMaxAge = sim.parameters.cellMaxAge →
      s._lastAdaptiveCellMaxAge = true →
      sim.parameters.cellMaxAgeBalancer = true →
      sim.parameters.cellMaxAgeBalancerInterval = 0 →
      ∃ s1 sim1, runTicks (fun q => ⌊q⌋) s sim (shrinkInputs T j) = some (s1, sim1)
        ∧ s1._cellMaxAge 0 = s._cellMaxAge 0 / (11 / 10) ^ j := by
  induction j with
  | zero =>
    intro T s sim _ _ _ _ _ _ _ _
    exact ⟨s, sim, rfl, by simp⟩
  | succ j ih =>
    intro T s sim hT hlast hrep hm hsnap hflag hen hint
    obtain ⟨s1, sim1, hp, h1, h2, h3, h4, h5, h6, h7, h8⟩ :=
      process_shrink_step s sim T (by omega) hlast hrep hm hsnap hflag hen hint
    obtain ⟨s2, sim2, hr, hv⟩ := ih (T + 1) s1 sim1 (by omega) h1 h2 h3 h4 h5 h6 h7
    refine ⟨s2, sim2, ?_, ?_⟩
    · simp only [shrinkInputs, runTicks, hp]
      exact hr
    · rw [hv, h8, pow_succ]
      field_simp
      ring

theorem shrinkInputs_length (j : ℕ) : ∀ T, (shrinkInputs T j).length = j := by
  induction j with
  | zero => intro T; rfl
  | succ j ih => intro T; simp [shrinkInputs, ih]

/-! ## The scanning loop in terms of finite sums -/

theorem filter_isActive_eq (n : Fin MAX_COLORS → ℕ) (m : ℕ) :
    Finset.filter (fun c => isActive n m c = true) Finset.univ
      = Finset.filter (fun c => n c / m > 20) Finset.univ := by
  apply Finset.filter_congr
  intro c _
  simp [isActive, MinReplicatorsLowerValue]

theorem scanColors_length_eq_card (n : Fin MAX_COLORS → ℕ) (m : ℕ) :
    (scanColors n m).colors.length
      = (Finset.filter (fun c => n c / m > 20) Finset.univ).card := by
  rw [scanColors_colors, ← filter_isActive_eq,
    ← List.toFinset_card_of_nodup ((List.nodup_finRange MAX_COLORS).filter _),
    List.toFinset_filter, List.toFinset_finRange]

theorem active_sum_eq_finset_sum (n : Fin MAX_COLORS → ℕ) (m : ℕ) :
    (((List.finRange MAX_COLORS).filter (isActive n m)).map n).sum
      = ∑ c ∈ Finset.filter (fun c => n c / m > 20) Finset.univ, n c := by
  rw [← filter_isActive_eq,
    ← List.sum_toFinset n ((List.nodup_finRange MAX_COLORS).filter _),
    List.toFinset_filter, List.toFinset_finRange]

theorem scanColors_sum_eq_finset_sum (n : Fin MAX_COLORS → ℕ) (m : ℕ) :
    (scanColors n m).averageReplicators
      = (∑ c ∈ Finset.filter (fun c => n c / m > 20) Finset.univ, n c) % 2 ^ 64 := by
  rw [scanColors_sum, active_sum_eq_finset_sum]

/-- A positive cross-average comes from a collected color. -/
theorem exists_active_of_crossAverage_pos (n : Fin MAX_COLORS → ℕ) (m : ℕ)
    (h : 0 < crossAverage n m) : ∃ c, n c / m > MinReplicatorsLowerValue := by
  by_contra hne
  push_neg at hne
  have h0 := crossAverage_eq_zero n m hne
  omega

theorem scanColors_colors_ne_nil_iff (n : Fin MAX_COLORS → ℕ) (m : ℕ) :
    (scanColors n m).colors ≠ [] ↔ ∃ c, n c / m > MinReplicatorsLowerValue := by
  constructor
  · intro h
    obtain ⟨c, hc⟩ := List.exists_mem_of_ne_nil _ h
    exact ⟨c, (mem_scanColors n m c).mp hc⟩
  · rintro ⟨c, hc⟩ h
    have hm := (mem_scanColors n m c).mpr hc
    rw [h] at hm
    simp at hm

/-- The loop of lines 83-90 keeps a working limit below `1.1 * MaxCellAge`. -/
theorem adaptedCellMaxAge_lt_ceiling (s : State MAX_COLORS)
    (sim : SimulationController MAX_COLORS) (c : Fin MAX_COLORS)
    (h : s._cellMaxAge c < 330000) : adaptedCellMaxAge s sim c < 330000 := by
  rcases adaptedCellMaxAge_cases s sim c with h1 | h1 | ⟨hlt, h1⟩ <;> rw [h1]
  · exact h
  · have h2 : s._cellMaxAge c / AdaptionFactor = s._cellMaxAge c * (10 / 11) := by
      unfold AdaptionFactor
      ring
    rw [h2]
    by_cases hx : 0 ≤ s._cellMaxAge c
    · linarith
    · linarith
  · unfold MaxCellAge at hlt
    unfold AdaptionFactor
    linarith

/-- A call in which the decision is due has not re-initialized: right after a
re-initialization the tick distance is 0. -/
theorem needsInitialization_eq_false_of_due (s : State MAX_COLORS)
    (sim : SimulationController MAX_COLORS) (t : ℕ)
    (hlast : (initializeIfNecessary s sim)._lastTimestep = some t)
    (hdue : uint64Sub sim.currentTimestep t
      > toUInt64 sim.parameters.cellMaxAgeBalancerInterval) :
    needsInitialization s sim = false := by
  cases hn : needsInitialization s sim with
  | false => rfl
  | true =>
    rw [initializeIfNecessary_of_needs s sim hn] at hlast
    simp only [Option.some.injEq] at hlast
    rw [← hlast] at hdue
    exact absurd hdue (not_due_of_restart _ _)

/-! ## C1: the decision rule -/

/-- C3. External edit resets the window: if the balancer is enabled and some store
`cellMaxAge[i]` differs from the snapshot `lastCellMaxAge[i]`, the `process()` call (with
a non-negative interval) returns with the working `cellMaxAge[]` equal to the store's
values, `lastTimestep` equal to the current tick, `numMeasurements = 1` and
`numReplicators[c]` equal to this tick's `numSelfReplicators[c]` for every color; the
store is left as it was. -/
theorem process_external_edit_resets_window (toInt : ℚ → ℤ) (s : State MAX_COLORS)
    (sim : SimulationController MAX_COLORS) (i : Fin MAX_COLORS)
    (henabled : sim.parameters.cellMaxAgeBalancer = true)
    (hedit : sim.parameters.cellMaxAge i ≠ s._lastCellMaxAge i)
    (_hinterval : 0 ≤ sim.parameters.cellMaxAgeBalancerInterval) :
    ∃ s1, process toInt s sim = some (s1, sim)
      ∧ (∀ c, s1._cellMaxAge c = (sim.parameters.cellMaxAge c : ℚ))
      ∧ s1._lastTimestep = some sim.currentTimestep
      ∧ s1._numMeasurements = 1
      ∧ ∀ c, s1._numReplicators c = sim.numSelfReplicators c := by
  have hn : needsInitialization s sim = true :=
    (needsInitialization_iff s sim).mpr (Or.inl ⟨i, hedit⟩)
  refine ⟨_, process_of_needs toInt s sim henabled hn, ?_, rfl, rfl, ?_⟩
  · intro c
    rfl
  · intro c
    exact Nat.zero_add _

/-- Witness of C3: in the middle of a window with accumulated counts 700 and 300 over
five measurements, the limit of color 2 is edited from 1000 to 500; the next call leaves
one measurement holding this tick's counts 130 and 50. -/
theorem process_external_edit_resets_window_witness :
    editedSim.parameters.cellMaxAge 2 ≠ midWindowState._lastCellMaxAge 2
    ∧ ∃ s1, process (fun q => ⌊q⌋) midWindowState editedSim = some (s1, editedSim)
      ∧ (∀ c, s1._cellMaxAge c = (editedSim.parameters.cellMaxAge c : ℚ))
      ∧ s1._lastTimestep = some 6
      ∧ s1._numMeasurements = 1
      ∧ ∀ c, s1._numReplicators c = editedSim.numSelfReplicators c :=
  ⟨by decide,
    process_external_edit_resets_window (fun q => ⌊q⌋) midWindowState editedSim 2 rfl
      (by decide) (by decide)⟩

/-! ## C7: a disabled balancer is inert -/

/-- C7. Disabled balancer is inert: a `process()` call made while `cellMaxAgeBalancer` is
false returns, leaves the collaborator (the whole parameter store, no
`setSimulationParameters` call) and the working `cellMaxAge[]`, `numReplicators[]`,
`numMeasurements` and `lastTimestep` unchanged, and sets the snapshot to the store's
current `cellMaxAge[]` and to the enable flag `false`. -/
theorem process_disabled_is_inert (toInt : ℚ → ℤ) (s : State MAX_COLORS)
    (sim : SimulationController MAX_COLORS)
    (hdisabled : sim.parameters.cellMaxAgeBalancer = false) :
    process toInt s sim
      = some ({ _lastCellMaxAge := sim.parameters.cellMaxAge
                _lastAdaptiveCellMaxAge := false
                _cellMaxAge := s._cellMaxAge
                _numReplicators := s._numReplicators
                _numMeasurements := s._numMeasurements
                _lastTimestep := s._lastTimestep }, sim) := by
  rw [process_of_disabled toInt s sim hdisabled]
  simp [saveLastState, getSimulationParameters, hdisabled]

/-- Witness of C7: the controller in the middle of a window, called with the balancer
switched off and an edited store. -/
theorem process_disabled_is_inert_witness :
    disabledSim.parameters.cellMaxAgeBalancer = false
    ∧ process (fun q => ⌊q⌋) midWindowState disabledSim
      = some ({ _lastCellMaxAge := disabledSim.parameters.cellMaxAge
                _lastAdaptiveCellMaxAge := false
                _cellMaxAge := midWindowState._cellMaxAge
                _numReplicators := midWindowState._numReplicators
                _numMeasurements := midWindowState._numMeasurements
                _lastTimestep := midWindowState._lastTimestep }, disabledSim) :=
  ⟨rfl, process_disabled_is_inert (fun q => ⌊q⌋) midWindowState disabledSim rfl⟩

/-! ## C10: a sparse population skips the adjustment -/

/-- C10. Sparse population skips the adjustment: in a decision cycle (window start set,
decision due) in which no color is active, `doAdaptionIfNecessary` returns with the
collaborator untouched (the store unchanged, `setSimulationParameters` not called) and
the working `cellMaxAge[]` unchanged, and the window is restarted: `lastTimestep` is the
current tick, every `numReplicators[c]` is 0 and `numMeasurements` is 0. -/
theorem doAdaptionIfNecessary_no_active_color (toInt : ℚ → ℤ) (s : State MAX_COLORS)
    (sim : SimulationController MAX_COLORS) (lastTimestep : ℕ)
    (hlast : s._lastTimestep = some lastTimestep)
    (hdue : uint64Sub sim.currentTimestep lastTimestep
      > toUInt64 sim.parameters.cellMaxAgeBalancerInterval)
    (hnone : ∀ c, (s._numReplicators c + sim.numSelfReplicators c)
      / (s._numMeasurements + 1) ≤ 20) :
    ∃ s1, doAdaptionIfNecessary toInt s sim = some (s1, sim)
      ∧ s1._cellMaxAge = s._cellMaxAge
      ∧ s1._lastTimestep = some sim.currentTimestep
      ∧ (∀ c, s1._numReplicators c = 0)
      ∧ s1._numMeasurements = 0
      ∧ s1._lastCellMaxAge = s._lastCellMaxAge
      ∧ s1._lastAdaptiveCellMaxAge = s._lastAdaptiveCellMaxAge := by
  have havg : crossAverage (accumulate s sim)._numReplicators
      (accumulate s sim)._numMeasurements = 0 :=
    crossAverage_eq_zero _ _ hnone
  exact ⟨_, doAdaption_of_due_zero toInt s sim lastTimestep hlast hdue havg, rfl, rfl,
    fun _ => rfl, rfl, rfl, rfl⟩

/-- Witness of C10: one measurement with counts 20 and 7, decision due at tick 11. -/
theorem doAdaptionIfNecessary_no_active_color_witness :
    (∀ c, (exampleState._numReplicators c + sparseSim.numSelfReplicators c)
      / (exampleState._numMeasurements + 1) ≤ 20)
    ∧ ∃ s1, doAdaptionIfNecessary (fun q => ⌊q⌋) exampleState sparseSim
        = some (s1, sparseSim)
      ∧ s1._cellMaxAge = exampleState._cellMaxAge
      ∧ s1._lastTimestep = some 11
      ∧ (∀ c, s1._numReplicators c = 0)
      ∧ s1._numMeasurements = 0
      ∧ s1._lastCellMaxAge = exampleState._lastCellMaxAge
      ∧ s1._lastAdaptiveCellMaxAge = exampleState._lastAdaptiveCellMaxAge :=
  ⟨by decide,
    doAdaptionIfNecessary_no_active_color (fun q => ⌊q⌋) exampleState sparseSim 0 rfl
      (by decide) (by decide)⟩

/-! ## C4: the timing of the decision -/

/-- C4 (amended). Decision timing: in an enabled `process()` call whose window start after
the re-initialization check is `t`, with `0 ≤ interval < 2^31` and
`t ≤ currentTick < 2^64`, the call returns and the decision step is executed (on return
the window is restarted: `numMeasurements = 0` and `lastTimestep = currentTick`) if and
only if `currentTick - t > interval`, strictly; when `currentTick - t ≤ interval`, also
when it equals the interval, the call only accumulates. -/
theorem process_decision_iff_interval_exceeded (toInt : ℚ → ℤ) (s : State MAX_COLORS)
    (sim : SimulationController MAX_COLORS) (t : ℕ)
    (henabled : sim.parameters.cellMaxAgeBalancer = true)
    (hlast : (initializeIfNecessary s sim)._lastTimestep = some t)
    (hle : t ≤ sim.currentTimestep) (hcur : sim.currentTimestep < 2 ^ 64)
    (hint : 0 ≤ sim.parameters.cellMaxAgeBalancerInterval)
    (hint1 : sim.parameters.cellMaxAgeBalancerInterval < 2 ^ 31) :
    ∃ s1 sim1, process toInt s sim = some (s1, sim1)
      ∧ ((s1._numMeasurements = 0 ∧ s1._lastTimestep = some sim.currentTimestep)
          ↔ (sim.currentTimestep : ℤ) - (t : ℤ)
              > sim.parameters.cellMaxAgeBalancerInterval)
      ∧ ((sim.currentTimestep : ℤ) - (t : ℤ) ≤ sim.parameters.cellMaxAgeBalancerInterval
          → s1._numMeasurements = (initializeIfNecessary s sim)._numMeasurements + 1
            ∧ s1._lastTimestep = some t
            ∧ s1._cellMaxAge = (initializeIfNecessary s sim)._cellMaxAge
            ∧ sim1 = sim) := by
  have hu := toUInt64_of_nonneg sim.parameters.cellMaxAgeBalancerInterval hint
    (by linarith)
  have hs := uint64Sub_of_le sim.currentTimestep t hle hcur
  have hiff : uint64Sub sim.currentTimestep t
        > toUInt64 sim.parameters.cellMaxAgeBalancerInterval
      ↔ (sim.currentTimestep : ℤ) - (t : ℤ)
        > sim.parameters.cellMaxAgeBalancerInterval := by
    rw [hs]
    constructor <;> intro h <;> omega
  obtain ⟨s1, sim1, hp, _, _, hyes, hno⟩ := process_enabled_cases toInt s sim t henabled hlast
  refine ⟨s1, sim1, hp, ⟨fun h => ?_, fun h => ?_⟩, fun h => ?_⟩
  · by_contra hn
    have h1 := (hno (fun hd => hn (hiff.mp hd))).1
    omega
  · exact ⟨(hyes (hiff.mpr h)).1, (hyes (hiff.mpr h)).2.1⟩
  · obtain ⟨h1, h2, h3, _, h5⟩ := hno (fun hd => by have := hiff.mp hd; omega)
    exact ⟨h1, h2, h3, h5⟩

/-- Counterexample to C4 as stated: at tick 10 with window start 0 and interval 10 the
distance equals the interval, yet the decision step is not executed: the window is not
restarted (six measurements, window start still 0), the limits are untouched and the
store is not written. -/
theorem process_not_decided_at_exact_interval :
    (exactIntervalSim.currentTimestep : ℤ) - 0
        ≥ exactIntervalSim.parameters.cellMaxAgeBalancerInterval
    ∧ ∃ s1, process (fun q => ⌊q⌋) midWindowState exactIntervalSim
        = some (s1, exactIntervalSim)
      ∧ s1._numMeasurements = 6
      ∧ s1._lastTimestep = some 0
      ∧ s1._cellMaxAge = midWindowState._cellMaxAge :=
  ⟨by decide,
    _, process_of_not_due (fun q => ⌊q⌋) midWindowState exactIntervalSim 0 rfl
      (by decide) (by decide), rfl, rfl, rfl⟩

/-- Witness of C4 (amended): at tick 11 with window start 0 and interval 10 the decision
step is executed. -/
theorem process_decision_iff_interval_exceeded_witness :
    ∃ s1 sim1, process (fun q => ⌊q⌋) exampleState exampleSim = some (s1, sim1)
      ∧ ((s1._numMeasurements = 0 ∧ s1._lastTimestep = some exampleSim.currentTimestep)
          ↔ (exampleSim.currentTimestep : ℤ) - ((0 : ℕ) : ℤ)
              > exampleSim.parameters.cellMaxAgeBalancerInterval)
      ∧ ((exampleSim.currentTimestep : ℤ) - ((0 : ℕ) : ℤ)
            ≤ exampleSim.parameters.cellMaxAgeBalancerInterval
          → s1._numMeasurements
              = (initializeIfNecessary exampleState exampleSim)._numMeasurements + 1
            ∧ s1._lastTimestep = some 0
            ∧ s1._cellMaxAge = (initializeIfNecessary exampleState exampleSim)._cellMaxAge
            ∧ sim1 = exampleSim) :=
  process_decision_iff_interval_exceeded (fun q => ⌊q⌋) exampleState exampleSim 0 rfl
    (by decide) (by decide) (by decide) (by decide) (by decide)

/-! ## C5: a non-positive interval -/

/-- C5 (amended). Non-positive interval, with the window start set whenever the snapshot
flag is true (an invariant that every call re-establishes): no `process()` call faults.
In an enabled call whose window start after the re-initialization check is `t`: with
interval 0 the decision step is executed as soon as `t < currentTick < 2^64` (the window
is restarted); with a negative interval `≥ -2^31`, compared as an unsigned 64-bit number,
the decision step is not executed while `t ≤ currentTick < 2^64 - 2^31` (the call only
accumulates and the store is untouched). -/
theorem process_nonpositive_interval (toInt : ℚ → ℤ) (s : State MAX_COLORS)
    (sim : SimulationController MAX_COLORS)
    (hinv : s._lastAdaptiveCellMaxAge = true → s._lastTimestep ≠ none)
    (hint : sim.parameters.cellMaxAgeBalancerInterval ≤ 0)
    (hlow : -2 ^ 31 ≤ sim.parameters.cellMaxAgeBalancerInterval) :
    ∃ s1 sim1, process toInt s sim = some (s1, sim1)
      ∧ (s1._lastAdaptiveCellMaxAge = true → s1._lastTimestep ≠ none)
      ∧ (sim.parameters.cellMaxAgeBalancer = true →
          ∃ t, (initializeIfNecessary s sim)._lastTimestep = some t
            ∧ (sim.parameters.cellMaxAgeBalancerInterval = 0 → t < sim.currentTimestep
                → sim.currentTimestep < 2 ^ 64
                → s1._numMeasurements = 0 ∧ s1._lastTimestep = some sim.currentTimestep)
            ∧ (sim.parameters.cellMaxAgeBalancerInterval < 0 → t ≤ sim.currentTimestep
                → sim.currentTimestep < 2 ^ 64 - 2 ^ 31
                → s1._numMeasurements = (initializeIfNecessary s sim)._numMeasurements + 1
                  ∧ s1._lastTimestep = some t
                  ∧ s1._cellMaxAge = (initializeIfNecessary s sim)._cellMaxAge
                  ∧ sim1 = sim)) := by
  cases hen : sim.parameters.cellMaxAgeBalancer with
  | false =>
    refine ⟨_, _, process_of_disabled toInt s sim hen, ?_, ?_⟩
    · intro h
      simp [saveLastState, getSimulationParameters, hen] at h
    · intro h
      exact absurd h (by simp)
  | true =>
    obtain ⟨t, ht⟩ := lastTimestep_after_initialize s sim hen hinv
    obtain ⟨s1, sim1, hp, _, hset, hyes, hno⟩ := process_enabled_cases toInt s sim t hen ht
    refine ⟨s1, sim1, hp, fun _ => hset, fun _ => ⟨t, ht, ?_, ?_⟩⟩
    · intro h0 hlt hcur
      have hs := uint64Sub_of_le sim.currentTimestep t (le_of_lt hlt) hcur
      have hd : uint64Sub sim.currentTimestep t
          > toUInt64 sim.parameters.cellMaxAgeBalancerInterval := by
        rw [h0, toUInt64_zero, hs]
        omega
      exact ⟨(hyes hd).1, (hyes hd).2.1⟩
    · intro hneg hle hcur
      have hs := uint64Sub_of_le sim.currentTimestep t hle (by omega)
      have hu := toUInt64_of_neg sim.parameters.cellMaxAgeBalancerInterval hneg
        (by linarith)
      have hd : ¬ uint64Sub sim.currentTimestep t
          > toUInt64 sim.parameters.cellMaxAgeBalancerInterval := by
        rw [hs]
        omega
      obtain ⟨h1, h2, h3, _, h5⟩ := hno hd
      exact ⟨h1, h2, h3, h5⟩

/-- Counterexample to C5 as stated: with interval 0 a fresh controller is called at tick
0 and at tick 1 with 130 and 50 replicators; the second call executes the decision step:
the window is restarted at tick 1, the store is written once and the limit of color 0 is
divided by 1.1. -/
theorem runTicks_zero_interval_decides :
    zeroIntervalSim.parameters.cellMaxAgeBalancerInterval ≤ 0
    ∧ ∃ s2 sim2, runTicks (fun q => ⌊q⌋) freshState zeroIntervalSim
          [(0, ![130, 50, 0, 0, 0, 0, 0]), (1, ![130, 50, 0, 0, 0, 0, 0])]
        = some (s2, sim2)
      ∧ s2._numMeasurements = 0
      ∧ s2._lastTimestep = some 1
      ∧ sim2.setCalls.length = 1
      ∧ s2._cellMaxAge 0 = 1000 / (11 / 10) := by
  refine ⟨by decide, ?_⟩
  simp only [runTicks]
  rw [process_of_needs _ _ _ rfl (by decide)]
  simp only []
  rw [process_of_due_pos _ _ _ 0 rfl (by decide) (by decide) (by decide)]
  refine ⟨_, _, rfl, rfl, rfl, rfl, ?_⟩
  simp only [saveLastState, startNewMeasurement]
  rw [adaptedCellMaxAge_of_active _ _ 0 (by decide)]
  rw [initializeIfNecessary_of_not_needs _ _ (by decide)]
  have ha : crossAverage (fun i : Fin 7 => 0 + (![130, 50, 0, 0, 0, 0, 0] : Fin 7 → ℕ) i
      + (![130, 50, 0, 0, 0, 0, 0] : Fin 7 → ℕ) i) (0 + 1 + 1) = 180 := by decide
  simp only [accumulate, zeroIntervalSim]
  rw [ha]
  norm_num [adaptedValue, toDouble, MinReplicatorsUpperValue, AdaptionRatio,
    AdaptionFactor, MaxCellAge]

/-- Witness of C5 (amended): the controller of the example, with the window started at
tick 0, called at tick 1 with interval -1. -/
theorem process_nonpositive_interval_witness :
    (exampleState._lastAdaptiveCellMaxAge = true → exampleState._lastTimestep ≠ none)
    ∧ ∃ s1 sim1, process (fun q => ⌊q⌋) exampleState negativeIntervalSim = some (s1, sim1)
      ∧ (s1._lastAdaptiveCellMaxAge = true → s1._lastTimestep ≠ none)
      ∧ (negativeIntervalSim.parameters.cellMaxAgeBalancer = true →
          ∃ t, (initializeIfNecessary exampleState negativeIntervalSim)._lastTimestep
              = some t
            ∧ (negativeIntervalSim.parameters.cellMaxAgeBalancerInterval = 0
                → t < negativeIntervalSim.currentTimestep
                → negativeIntervalSim.currentTimestep < 2 ^ 64
                → s1._numMeasurements = 0
                  ∧ s1._lastTimestep = some negativeIntervalSim.currentTimestep)
            ∧ (negativeIntervalSim.parameters.cellMaxAgeBalancerInterval < 0
                → t ≤ negativeIntervalSim.currentTimestep
                → negativeIntervalSim.currentTimestep < 2 ^ 64 - 2 ^ 31
                → s1._numMeasurements
                    = (initializeIfNecessary exampleState negativeIntervalSim)._numMeasurements
                      + 1
                  ∧ s1._lastTimestep = some t
                  ∧ s1._cellMaxAge
                    = (initializeIfNecessary exampleState negativeIntervalSim)._cellMaxAge
                  ∧ sim1 = negativeIntervalSim)) :=
  ⟨by decide,
    process_nonpositive_interval (fun q => ⌊q⌋) exampleState negativeIntervalSim
      (by decide) (by decide) (by decide)⟩

/-! ## C2: inactive colors are frozen -/

/-- C2. Inactive colors are frozen: for a controller state reached after a
re-initialization (with a conversion `toInt` that returns an integer unchanged) and a
`process()` call that is a decision cycle (balancer enabled, decision due after the
re-initialization check), a color `c` whose integer quotient
`numReplicators[c] / numMeasurements` is at most 20 (in particular whenever its exact
average is at most 20) is not collected and its count does not enter the cross-average
(any other inactive count gives the same cross-average), and the call returns with both
the working `cellMaxAge[c]` and the store's integer `cellMaxAge[c]` as they were before
the call. -/
theorem process_inactive_color_frozen (toInt : ℚ → ℤ) (htoInt : ∀ k : ℤ, toInt (k : ℚ) = k)
    (s : State MAX_COLORS) (hs : ReachedAfterInit toInt (fun _ => True) s)
    (sim : SimulationController MAX_COLORS) (t : ℕ) (c : Fin MAX_COLORS)
    (henabled : sim.parameters.cellMaxAgeBalancer = true)
    (hlast : (initializeIfNecessary s sim)._lastTimestep = some t)
    (hdue : uint64Sub sim.currentTimestep t
      > toUInt64 sim.parameters.cellMaxAgeBalancerInterval)
    (hinactive : ((initializeIfNecessary s sim)._numReplicators c + sim.numSelfReplicators c)
      / ((initializeIfNecessary s sim)._numMeasurements + 1) ≤ 20) :
    ∃ s1 sim1, process toInt s sim = some (s1, sim1)
      ∧ s1._cellMaxAge c = s._cellMaxAge c
      ∧ sim1.parameters.cellMaxAge c = sim.parameters.cellMaxAge c
      ∧ c ∉ (scanColors (fun i => s._numReplicators i + sim.numSelfReplicators i)
              (s._numMeasurements + 1)).colors
      ∧ ∀ k, k / (s._numMeasurements + 1) ≤ 20 →
          crossAverage
              (Function.update (fun i => s._numReplicators i + sim.numSelfReplicators i) c k)
              (s._numMeasurements + 1)
            = crossAverage (fun i => s._numReplicators i + sim.numSelfReplicators i)
                (s._numMeasurements + 1) := by
  have hn : needsInitialization s sim = false := by
    cases hn : needsInitialization s sim with
    | false => rfl
    | true =>
      rw [initializeIfNecessary_of_needs s sim hn] at hlast
      simp only [Option.some.injEq] at hlast
      rw [← hlast] at hdue
      exact absurd hdue (not_due_of_restart _ _)
  have h0 := initializeIfNecessary_of_not_needs s sim hn
  rw [h0] at hinactive
  have hf := needsInitialization_eq_false s sim hn
  have hsync := synced_of_reached toInt htoInt _ s hs (by rw [← hf.2, henabled])
  have hc : ¬ (accumulate s sim)._numReplicators c / (accumulate s sim)._numMeasurements
      > MinReplicatorsLowerValue := fun h => absurd hinactive (not_le.mpr h)
  have hfix := adaptedCellMaxAge_of_inactive s sim c hc
  have hmem : c ∉ (scanColors (fun i => s._numReplicators i + sim.numSelfReplicators i)
      (s._numMeasurements + 1)).colors := fun h => hc ((mem_scanColors _ _ c).mp h)
  have hframe : ∀ k, k / (s._numMeasurements + 1) ≤ 20 →
      crossAverage
          (Function.update (fun i => s._numReplicators i + sim.numSelfReplicators i) c k)
          (s._numMeasurements + 1)
        = crossAverage (fun i => s._numReplicators i + sim.numSelfReplicators i)
            (s._numMeasurements + 1) :=
    fun k hk => crossAverage_update_inactive _ _ k c hc (not_lt.mpr hk)
  by_cases havg : 0 < crossAverage (accumulate (initializeIfNecessary s sim) sim)._numReplicators
      (accumulate (initializeIfNecessary s sim) sim)._numMeasurements
  · refine ⟨_, _, process_of_due_pos toInt s sim t henabled hlast hdue havg, ?_, ?_,
      hmem, hframe⟩
    · show adaptedCellMaxAge (initializeIfNecessary s sim) sim c = s._cellMaxAge c
      rw [h0, hfix]
    · show toInt (adaptedCellMaxAge (initializeIfNecessary s sim) sim c)
        = sim.parameters.cellMaxAge c
      rw [h0, hfix, ← hsync c, hf.1 c]
  · have havg0 : crossAverage (accumulate (initializeIfNecessary s sim) sim)._numReplicators
        (accumulate (initializeIfNecessary s sim) sim)._numMeasurements = 0 := by omega
    refine ⟨_, _, process_of_due_zero toInt s sim t henabled hlast hdue havg0, ?_, rfl,
      hmem, hframe⟩
    show (initializeIfNecessary s sim)._cellMaxAge c = s._cellMaxAge c
    rw [h0]

/-- Witness of C2: a fresh controller is initialized at tick 0 and called again at tick
11 (interval 10) with colors 0 and 1 populated; color 2, with no replicators, keeps its
working limit and its limit in the store. -/
theorem process_inactive_color_frozen_witness :
    ∃ s1 sim1, process (fun q => ⌊q⌋) afterInitState exampleSim = some (s1, sim1)
      ∧ s1._cellMaxAge 2 = afterInitState._cellMaxAge 2
      ∧ sim1.parameters.cellMaxAge 2 = exampleSim.parameters.cellMaxAge 2
      ∧ (2 : Fin 7) ∉ (scanColors
            (fun i => afterInitState._numReplicators i + exampleSim.numSelfReplicators i)
            (afterInitState._numMeasurements + 1)).colors
      ∧ ∀ k, k / (afterInitState._numMeasurements + 1) ≤ 20 →
          crossAverage
              (Function.update
                (fun i => afterInitState._numReplicators i + exampleSim.numSelfReplicators i)
                2 k)
              (afterInitState._numMeasurements + 1)
            = crossAverage
                (fun i => afterInitState._numReplicators i + exampleSim.numSelfReplicators i)
                (afterInitState._numMeasurements + 1) :=
  process_inactive_color_frozen (fun q => ⌊q⌋) Int.floor_intCast afterInitState
    (ReachedAfterInit.init freshState startSim afterInitState startSim rfl (by decide)
      trivial (process_of_needs _ freshState startSim rfl (by decide)))
    exampleSim 0 2 rfl (by decide) (by decide) (by decide)

/-! ## C6: the activity predicate -/

/-- C6 (evaluation at the failing input). With 41 replicators of color 0 and 300 of
color 1 over 2 measurements the exact average of color 0 is 20.5, above 20, yet the loop
of lines 66-77 does not collect color 0: the quotient of line 70 is the integer 20. The
cross-average is that of color 1 alone. From 42 replicators on the color is collected. -/
theorem scanColors_truncates_average :
    ((41 : ℚ) / 2 > 20)
    ∧ (0 : Fin 7) ∉ (scanColors ![41, 300, 0, 0, 0, 0, 0] 2).colors
    ∧ crossAverage (![41, 300, 0, 0, 0, 0, 0] : Fin 7 → ℕ) 2 = 300
    ∧ (0 : Fin 7) ∈ (scanColors ![42, 300, 0, 0, 0, 0, 0] 2).colors := by
  refine ⟨by norm_num, by decide, by decide, by decide⟩

/-! ## C9: the working limits stay positive -/

/-- C9. Positivity invariant: in every controller state reached after a
re-initialization, along calls whose re-initializations read only positive store limits,
the working `cellMaxAge[c]` is strictly positive for every color `c` (exact rational
arithmetic). -/
theorem cellMaxAge_pos_of_reached (toInt : ℚ → ℤ) (s : State MAX_COLORS)
    (h : ReachedAfterInit toInt (fun p => ∀ i, 0 < p.cellMaxAge i) s) (c : Fin MAX_COLORS) :
    0 < s._cellMaxAge c := by
  induction h with
  | init s sim s1 sim1 he hn hok hp =>
    rcases process_cases toInt s s1 sim sim1 hp with
      ⟨hd, _, _⟩ | ⟨_, _, h2, _⟩ | ⟨_, hn0, _⟩
    · rw [he] at hd
      exact absurd hd (by simp)
    · rw [h2]
      show (0 : ℚ) < ((sim.parameters.cellMaxAge c : ℤ) : ℚ)
      exact_mod_cast hok c
    · rw [hn] at hn0
      exact absurd hn0 (by simp)
  | step s sim s1 sim1 _ hok hp ih =>
    rcases process_cellMaxAge_cases toInt s s1 sim sim1 hp with ⟨he, hn, h1⟩ | h1 | h1
    · rw [h1]
      show (0 : ℚ) < ((sim.parameters.cellMaxAge c : ℤ) : ℚ)
      exact_mod_cast hok he hn c
    · rw [h1]
      exact ih
    · rw [h1]
      exact adaptedCellMaxAge_pos s sim c ih

/-- Witness of C9: a fresh controller is initialized at tick 0 from a store with all
limits at 1000 and decides at tick 11; the limits it is left with are positive. -/
theorem cellMaxAge_pos_of_reached_witness :
    ∃ s2 sim2, process (fun q => ⌊q⌋) afterInitState exampleSim = some (s2, sim2)
      ∧ ∀ c, 0 < s2._cellMaxAge c := by
  have hp := process_of_due_pos (fun q => ⌊q⌋) afterInitState exampleSim 0 rfl
    (by decide) (by decide) (by decide)
  exact ⟨_, _, hp, fun c => cellMaxAge_pos_of_reached (fun q => ⌊q⌋) _
    (ReachedAfterInit.step afterInitState exampleSim _ _
      (ReachedAfterInit.init freshState startSim afterInitState startSim rfl (by decide)
        (fun _ => show (0 : ℤ) < 1000 by decide)
        (process_of_needs _ freshState startSim rfl (by decide)))
      (fun _ hn => absurd hn (by decide)) hp) c⟩

/-! ## C8: the aging limit under repeated decision cycles -/

/-- C8 (amended). No fixed minimum under repeated cycles: for a start state with every
working limit at least 1, in step with the store (no pending external edit) and with the
window start set whenever the snapshot flag is true, every closed-loop run of `n` calls
of `process()` (hence of at most `n` decision cycles, with any statistics, constant ones
included) returns, and afterwards every working `cellMaxAge[c]` is at least
`(10/11)^n`, hence strictly positive, and the store's integer `cellMaxAge[c]` is its
start value or the conversion of a working value that is at least `(10/11)^n`. -/
theorem runTicks_cellMaxAge_lower_bound (toInt : ℚ → ℤ) (s : State MAX_COLORS)
    (sim : SimulationController MAX_COLORS) (inputs : List (ℕ × (Fin MAX_COLORS → ℕ)))
    (hsnap : s._lastCellMaxAge = sim.parameters.cellMaxAge)
    (hflag : s._lastAdaptiveCellMaxAge = sim.parameters.cellMaxAgeBalancer)
    (hinv : s._lastAdaptiveCellMaxAge = true → s._lastTimestep ≠ none)
    (hstart : ∀ c, 1 ≤ s._cellMaxAge c) :
    ∃ s1 sim1, runTicks toInt s sim inputs = some (s1, sim1)
      ∧ (∀ c, (10 / 11 : ℚ) ^ inputs.length ≤ s1._cellMaxAge c ∧ 0 < s1._cellMaxAge c)
      ∧ (∀ c, sim1.parameters.cellMaxAge c = sim.parameters.cellMaxAge c
          ∨ ∃ q : ℚ, (10 / 11 : ℚ) ^ inputs.length ≤ q
              ∧ sim1.parameters.cellMaxAge c = toInt q) := by
  have hpos : ∀ c, 0 < s._cellMaxAge c := fun c => lt_of_lt_of_le one_pos (hstart c)
  obtain ⟨s1, sim1, hr, hlow, hstore⟩ :=
    runTicks_lower_bound toInt inputs s sim hsnap hflag hinv hpos
  have hp : (0 : ℚ) < (10 / 11) ^ inputs.length := by positivity
  have hb : ∀ c, (10 / 11 : ℚ) ^ inputs.length
      ≤ s._cellMaxAge c * (10 / 11) ^ inputs.length := fun c => by
    have := mul_le_mul_of_nonneg_right (hstart c) (le_of_lt hp)
    linarith
  refine ⟨s1, sim1, hr, fun c => ?_, fun c => ?_⟩
  · have h1 := le_trans (hb c) (hlow c)
    exact ⟨h1, lt_of_lt_of_le hp h1⟩
  · rcases hstore c with h | ⟨q, hq, h⟩
    · exact Or.inl h
    · exact Or.inr ⟨q, le_trans (hb c) hq, h⟩

/-- Counterexample to C8 as stated: every limit starts at 300000 and each tick reports
the constant counts 130 and 50; after 133 consecutive decision cycles the working limit
of color 0 is `300000 / 1.1^133`, below 1. -/
theorem runTicks_limit_drops_below_one :
    (∀ c, 1 ≤ ceilingState._cellMaxAge c ∧ ceilingState._cellMaxAge c ≤ 300000)
    ∧ (shrinkInputs 0 133).length ≤ 1000
    ∧ ∃ s1 sim1, runTicks (fun q => ⌊q⌋) ceilingState ceilingSim (shrinkInputs 0 133)
        = some (s1, sim1)
      ∧ s1._cellMaxAge 0 < 1 := by
  refine ⟨fun c => ?_, ?_, ?_⟩
  · norm_num [ceilingState]
  · rw [shrinkInputs_length]
    norm_num
  · obtain ⟨s1, sim1, hr, hv⟩ := runTicks_shrinks 133 0 ceilingState ceilingSim
      (by norm_num) rfl rfl rfl rfl rfl rfl rfl
    refine ⟨s1, sim1, hr, ?_⟩
    rw [hv]
    norm_num [ceilingState]

/-- Witness of C8 (amended): the run of 133 shrinking cycles from the ceiling. -/
theorem runTicks_cellMaxAge_lower_bound_witness :
    ∃ s1 sim1, runTicks (fun q => ⌊q⌋) ceilingState ceilingSim (shrinkInputs 0 133)
        = some (s1, sim1)
      ∧ (∀ c, (10 / 11 : ℚ) ^ (shrinkInputs 0 133).length ≤ s1._cellMaxAge c
          ∧ 0 < s1._cellMaxAge c)
      ∧ (∀ c, sim1.parameters.cellMaxAge c = ceilingSim.parameters.cellMaxAge c
          ∨ ∃ q : ℚ, (10 / 11 : ℚ) ^ (shrinkInputs 0 133).length ≤ q
              ∧ sim1.parameters.cellMaxAge c = ⌊q⌋) :=
  runTicks_cellMaxAge_lower_bound (fun q => ⌊q⌋) ceilingState ceilingSim
    (shrinkInputs 0 133) rfl rfl (by decide) (fun c => by norm_num [ceilingState])

/-! ## C13: the window is restarted after every decision -/

/-- C13. Window restart after every decision: in an enabled `process()` call whose window
start after the re-initialization check is `t` and in which the decision is due, the call
returns (whether the adjustment is made or skipped for lack of an active color) with
`lastTimestep` equal to the current tick, `numReplicators[c] = 0` for every color and
`numMeasurements = 0`. -/
theorem process_decision_restarts_window (toInt : ℚ → ℤ) (s : State MAX_COLORS)
    (sim : SimulationController MAX_COLORS) (t : ℕ)
    (henabled : sim.parameters.cellMaxAgeBalancer = true)
    (hlast : (initializeIfNecessary s sim)._lastTimestep = some t)
    (hdue : uint64Sub sim.currentTimestep t
      > toUInt64 sim.parameters.cellMaxAgeBalancerInterval) :
    ∃ s1 sim1, process toInt s sim = some (s1, sim1)
      ∧ s1._lastTimestep = some sim.currentTimestep
      ∧ (∀ c, s1._numReplicators c = 0)
      ∧ s1._numMeasurements = 0 := by
  obtain ⟨s1, sim1, hp, _, _, hyes, _⟩ := process_enabled_cases toInt s sim t henabled hlast
  obtain ⟨h1, h2, h3⟩ := hyes hdue
  exact ⟨s1, sim1, hp, h2, h3, h1⟩

/-- Witness of C13: a due decision with an adjustment (counts 130 and 50) and a due
decision without active color (counts 20 and 7), both at tick 11 from window start 0. -/
theorem process_decision_restarts_window_witness :
    (∃ s1 sim1, process (fun q => ⌊q⌋) exampleState exampleSim = some (s1, sim1)
      ∧ s1._lastTimestep = some 11
      ∧ (∀ c, s1._numReplicators c = 0)
      ∧ s1._numMeasurements = 0)
    ∧ (∃ s1 sim1, process (fun q => ⌊q⌋) exampleState sparseSim = some (s1, sim1)
      ∧ s1._lastTimestep = some 11
      ∧ (∀ c, s1._numReplicators c = 0)
      ∧ s1._numMeasurements = 0) :=
  ⟨process_decision_restarts_window (fun q => ⌊q⌋) exampleState exampleSim 0 rfl
      (by decide) (by decide),
    process_decision_restarts_window (fun q => ⌊q⌋) exampleState sparseSim 0 rfl
      (by decide) (by decide)⟩

/-! ## C14: accumulation within a window -/

/-- C14. Accumulation within a window: in an enabled `process()` call without
re-initialization, with the window start set at `t` and the decision not due, the call
returns with the collaborator unchanged (no store write), `numReplicators[c]` increased
by this tick's `numSelfReplicators[c]` for every color, `numMeasurements` increased by 1,
and `lastTimestep` and the working `cellMaxAge[]` unchanged; no accumulator decreases. -/
theorem process_accumulates_within_window (toInt : ℚ → ℤ) (s : State MAX_COLORS)
    (sim : SimulationController MAX_COLORS) (t : ℕ)
    (henabled : sim.parameters.cellMaxAgeBalancer = true)
    (hno : needsInitialization s sim = false)
    (hlast : s._lastTimestep = some t)
    (hnotdue : ¬ uint64Sub sim.currentTimestep t
      > toUInt64 sim.parameters.cellMaxAgeBalancerInterval) :
    ∃ s1, process toInt s sim = some (s1, sim)
      ∧ (∀ c, s1._numReplicators c = s._numReplicators c + sim.numSelfReplicators c)
      ∧ s1._numMeasurements = s._numMeasurements + 1
      ∧ s1._lastTimestep = s._lastTimestep
      ∧ s1._cellMaxAge = s._cellMaxAge
      ∧ (∀ c, s._numReplicators c ≤ s1._numReplicators c)
      ∧ s._numMeasurements ≤ s1._numMeasurements := by
  have h0 := initializeIfNecessary_of_not_needs s sim hno
  have hp := process_of_not_due toInt s sim t henabled (by rw [h0, hlast]) hnotdue
  rw [h0] at hp
  exact ⟨_, hp, fun _ => rfl, rfl, rfl, rfl, fun c => Nat.le_add_right _ _,
    Nat.le_add_right _ _⟩

/-- Witness of C14: in the middle of a window (five measurements since tick 0, interval
10) the call at tick 10 adds the counts 130 and 50 to 700 and 300. -/
theorem process_accumulates_within_window_witness :
    ∃ s1, process (fun q => ⌊q⌋) midWindowState exactIntervalSim
        = some (s1, exactIntervalSim)
      ∧ (∀ c, s1._numReplicators c
          = midWindowState._numReplicators c + exactIntervalSim.numSelfReplicators c)
      ∧ s1._numMeasurements = midWindowState._numMeasurements + 1
      ∧ s1._lastTimestep = midWindowState._lastTimestep
      ∧ s1._cellMaxAge = midWindowState._cellMaxAge
      ∧ (∀ c, midWindowState._numReplicators c ≤ s1._numReplicators c)
      ∧ midWindowState._numMeasurements ≤ s1._numMeasurements :=
  process_accumulates_within_window (fun q => ⌊q⌋) midWindowState exactIntervalSim 0 rfl
    (by decide) rfl (by decide)

/-! ## C16: the balancer's own write is not an external edit -/

/-- C16. The balancer's own write is not mistaken for an external edit: after every
returning `process()` call the snapshot `lastCellMaxAge[]` and the snapshot flag equal
the store's `cellMaxAge[]` and enable flag as they are at return (the values just written
included); hence in a next call that finds the store as this call left it, whatever the
tick and the statistics, no re-initialization takes place: `initializeIfNecessary`
leaves the state, with its fractional working limits and its window, as it is. -/
theorem process_own_write_is_no_edit (toInt : ℚ → ℤ) (s s1 : State MAX_COLORS)
    (sim sim1 : SimulationController MAX_COLORS)
    (hp : process toInt s sim = some (s1, sim1)) :
    s1._lastCellMaxAge = sim1.parameters.cellMaxAge
      ∧ s1._lastAdaptiveCellMaxAge = sim1.parameters.cellMaxAgeBalancer
      ∧ ∀ sim2 : SimulationController MAX_COLORS, sim2.parameters = sim1.parameters →
          needsInitialization s1 sim2 = false ∧ initializeIfNecessary s1 sim2 = s1 := by
  have hsn := process_snapshot toInt s s1 sim sim1 hp
  refine ⟨hsn.1, hsn.2.1, fun sim2 h2 => ?_⟩
  have hn : needsInitialization s1 sim2 = false := by
    cases h : needsInitialization s1 sim2 with
    | false => rfl
    | true =>
      rw [needsInitialization_iff, h2, hsn.1, hsn.2.1] at h
      simp at h
  exact ⟨hn, initializeIfNecessary_of_not_needs s1 sim2 hn⟩

/-- Witness of C16: the decision at tick 11 writes the store (limits 909 and 1100 for
colors 0 and 1); the snapshot holds the written values and a following call sees no
edit. -/
theorem process_own_write_is_no_edit_witness :
    ∃ s1 sim1, process (fun q => ⌊q⌋) exampleState exampleSim = some (s1, sim1)
      ∧ sim1.setCalls.length = 1
      ∧ s1._lastCellMaxAge = sim1.parameters.cellMaxAge
      ∧ s1._lastAdaptiveCellMaxAge = sim1.parameters.cellMaxAgeBalancer
      ∧ ∀ sim2 : SimulationController 7, sim2.parameters = sim1.parameters →
          needsInitialization s1 sim2 = false ∧ initializeIfNecessary s1 sim2 = s1 := by
  have hp := process_of_due_pos (fun q => ⌊q⌋) exampleState exampleSim 0 rfl
    (by decide) (by decide) (by decide)
  exact ⟨_, _, hp, rfl, process_own_write_is_no_edit (fun q => ⌊q⌋) _ _ _ _ hp⟩

/-! ## C15: the cross-average -/

/-- C15 (amended). Cross-average definition: when some color is active, the number of
collected colors is the number of active colors (at least 1), inactive colors add nothing
to the sum or the count, and the local `averageReplicators`, a `uint64_t`, holds the sum
of `numReplicators[c]` over the active colors modulo `2^64`; the cross-average used in
the ratio tests is the integer quotient of that value by the number of active colors.
Provided the sum of the active counts is below `2^64`, it is the integer quotient
floor(sum / count). -/
theorem crossAverage_is_floor_of_active_mean (n : Fin MAX_COLORS → ℕ) (m : ℕ)
    (c0 : Fin MAX_COLORS) (hactive : n c0 / m > 20) :
    1 ≤ (Finset.filter (fun c => n c / m > 20) Finset.univ).card
    ∧ (scanColors n m).colors.length
        = (Finset.filter (fun c => n c / m > 20) Finset.univ).card
    ∧ (scanColors n m).averageReplicators
        = (∑ c ∈ Finset.filter (fun c => n c / m > 20) Finset.univ, n c) % 2 ^ 64
    ∧ (∑ c ∈ Finset.filter (fun c => n c / m > 20) Finset.univ, n c)
        = (∑ c, if n c / m > 20 then n c else 0)
    ∧ crossAverage n m
        = (∑ c ∈ Finset.filter (fun c => n c / m > 20) Finset.univ, n c) % 2 ^ 64
          / (Finset.filter (fun c => n c / m > 20) Finset.univ).card
    ∧ ((∑ c ∈ Finset.filter (fun c => n c / m > 20) Finset.univ, n c) < 2 ^ 64 →
        (scanColors n m).averageReplicators
          = ∑ c ∈ Finset.filter (fun c => n c / m > 20) Finset.univ, n c
        ∧ crossAverage n m
          = (∑ c ∈ Finset.filter (fun c => n c / m > 20) Finset.univ, n c)
            / (Finset.filter (fun c => n c / m > 20) Finset.univ).card
        ∧ ((crossAverage n m : ℕ) : ℤ)
          = ⌊((∑ c ∈ Finset.filter (fun c => n c / m > 20) Finset.univ, n c : ℕ) : ℚ)
              / (((Finset.filter (fun c => n c / m > 20) Finset.univ).card : ℕ) : ℚ)⌋) := by
  have hcard : 1 ≤ (Finset.filter (fun c => n c / m > 20) Finset.univ).card :=
    Finset.card_pos.mpr ⟨c0, Finset.mem_filter.mpr ⟨Finset.mem_univ _, hactive⟩⟩
  have hlen := scanColors_length_eq_card n m
  have hsum := scanColors_sum_eq_finset_sum n m
  have hq : crossAverage n m
      = (∑ c ∈ Finset.filter (fun c => n c / m > 20) Finset.univ, n c) % 2 ^ 64
        / (Finset.filter (fun c => n c / m > 20) Finset.univ).card := by
    have hne : (scanColors n m).colors ≠ [] := by
      intro h
      have h1 : (scanColors n m).colors.length = 0 := by rw [h]; rfl
      omega
    unfold crossAverage
    simp only [hne, ne_eq, not_false_eq_true, if_true]
    rw [hlen, hsum]
  refine ⟨hcard, hlen, hsum, Finset.sum_filter _ _, hq, fun hfit => ?_⟩
  have hmod := Nat.mod_eq_of_lt hfit
  have hq1 : crossAverage n m
      = (∑ c ∈ Finset.filter (fun c => n c / m > 20) Finset.univ, n c)
        / (Finset.filter (fun c => n c / m > 20) Finset.univ).card := by
    rw [hq, hmod]
  refine ⟨by rw [hsum, hmod], hq1, ?_⟩
  have h := Rat.floor_intCast_div_natCast
    ((∑ c ∈ Finset.filter (fun c => n c / m > 20) Finset.univ, n c : ℕ) : ℤ)
    (Finset.filter (fun c => n c / m > 20) Finset.univ).card
  rw [Int.cast_natCast] at h
  rw [h, hq1, Int.natCast_div]

/-- Counterexample to C15 as stated: with the accumulated counts `3 * 2^62` and `2^62`
(one measurement) both colors are active and the quotient of their sum `2^64` by their
number 2 is `2^63`, yet the `uint64_t` sum of line 74 wraps to 0 and the cross-average
is 0. -/
theorem crossAverage_wraps_at_two_pow_64 :
    wrappingCounts 0 / 1 > 20 ∧ wrappingCounts 1 / 1 > 20
    ∧ (scanColors wrappingCounts 1).colors = [0, 1]
    ∧ (wrappingCounts 0 + wrappingCounts 1) / 2 = 2 ^ 63
    ∧ (scanColors wrappingCounts 1).averageReplicators = 0
    ∧ crossAverage wrappingCounts 1 = 0 := by
  refine ⟨by decide, by decide, by decide, by decide, by decide, by decide⟩

/-- Witness of C15 (amended): the active totals 130 and 50 (one measurement, the other
colors empty) give the cross-average 90. -/
theorem crossAverage_is_floor_of_active_mean_witness :
    crossAverage (![130, 50, 0, 0, 0, 0, 0] : Fin 7 → ℕ) 1 = 90
    ∧ (Finset.filter (fun c => (![130, 50, 0, 0, 0, 0, 0] : Fin 7 → ℕ) c / 1 > 20)
        Finset.univ).card = 2
    ∧ (∑ c ∈ Finset.filter (fun c => (![130, 50, 0, 0, 0, 0, 0] : Fin 7 → ℕ) c / 1 > 20)
        Finset.univ, (![130, 50, 0, 0, 0, 0, 0] : Fin 7 → ℕ) c) < 2 ^ 64
    ∧ crossAverage (![130, 50, 0, 0, 0, 0, 0] : Fin 7 → ℕ) 1
        = (∑ c ∈ Finset.filter (fun c => (![130, 50, 0, 0, 0, 0, 0] : Fin 7 → ℕ) c / 1 > 20)
            Finset.univ, (![130, 50, 0, 0, 0, 0, 0] : Fin 7 → ℕ) c)
          / (Finset.filter (fun c => (![130, 50, 0, 0, 0, 0, 0] : Fin 7 → ℕ) c / 1 > 20)
              Finset.univ).card :=
  ⟨by decide, by decide, by decide,
    ((crossAverage_is_floor_of_active_mean (![130, 50, 0, 0, 0, 0, 0] : Fin 7 → ℕ) 1 0
      (by decide)).2.2.2.2.2 (by decide)).2.1⟩

/-! ## C17: a single snapshot write -/

/-- C17. Single snapshot write with a frame: a returning `process()` call either leaves
the collaborator as it is (no `setSimulationParameters` call), or calls
`setSimulationParameters` exactly once, and then the call is an enabled decision cycle
with at least one active color, the snapshot written is the store read before with only
`cellMaxAge[]` replaced (`cellMaxAgeBalancer` and `cellMaxAgeBalancerInterval` are
unchanged), every `cellMaxAge[i]` of it is the conversion of the working limit on return,
and it is the store on return. -/
theorem process_writes_one_snapshot (toInt : ℚ → ℤ) (s s1 : State MAX_COLORS)
    (sim sim1 : SimulationController MAX_COLORS)
    (hp : process toInt s sim = some (s1, sim1)) :
    sim1 = sim
    ∨ ∃ p : SimulationParameters MAX_COLORS,
        sim1.setCalls = sim.setCalls ++ [p]
        ∧ sim1.parameters = p
        ∧ p.cellMaxAgeBalancer = sim.parameters.cellMaxAgeBalancer
        ∧ p.cellMaxAgeBalancerInterval = sim.parameters.cellMaxAgeBalancerInterval
        ∧ (∀ i, p.cellMaxAge i = toInt (s1._cellMaxAge i))
        ∧ sim1.numSelfReplicators = sim.numSelfReplicators
        ∧ sim1.currentTimestep = sim.currentTimestep
        ∧ sim.parameters.cellMaxAgeBalancer = true
        ∧ (∃ t, (initializeIfNecessary s sim)._lastTimestep = some t
            ∧ uint64Sub sim.currentTimestep t
              > toUInt64 sim.parameters.cellMaxAgeBalancerInterval)
        ∧ ∃ c, ((initializeIfNecessary s sim)._numReplicators c + sim.numSelfReplicators c)
            / ((initializeIfNecessary s sim)._numMeasurements + 1) > 20 := by
  rcases process_cases toInt s s1 sim sim1 hp with
    ⟨_, _, h2⟩ | ⟨_, _, _, h2⟩
      | ⟨he, hn, t, ht, ⟨_, _, h2⟩ | ⟨_, _, _, h2⟩ | ⟨hdue, havg, h1, h2⟩⟩
  · exact Or.inl h2
  · exact Or.inl h2
  · exact Or.inl h2
  · exact Or.inl h2
  · right
    have h0 := initializeIfNecessary_of_not_needs s sim hn
    obtain ⟨c, hc⟩ := exists_active_of_crossAverage_pos _ _ havg
    refine ⟨writtenParameters toInt sim (adaptedCellMaxAge s sim), ?_, ?_, rfl, rfl, ?_,
      ?_, ?_, he, ⟨t, by rw [h0, ht], hdue⟩, ⟨c, by rw [h0]; exact hc⟩⟩
    · rw [h2]
      rfl
    · rw [h2]
      rfl
    · intro i
      rw [h1]
      rfl
    · rw [h2]
      rfl
    · rw [h2]
      rfl

/-- Witness of C17: the decision at tick 11 with counts 130 and 50 writes one snapshot;
the interval 10 and the enable flag are the ones read. -/
theorem process_writes_one_snapshot_witness :
    ∃ s1 sim1, process (fun q => ⌊q⌋) exampleState exampleSim = some (s1, sim1)
      ∧ sim1.setCalls.length = 1
      ∧ sim1.parameters.cellMaxAgeBalancerInterval = 10
      ∧ (sim1 = exampleSim
        ∨ ∃ p : SimulationParameters 7,
            sim1.setCalls = exampleSim.setCalls ++ [p]
            ∧ sim1.parameters = p
            ∧ p.cellMaxAgeBalancer = exampleSim.parameters.cellMaxAgeBalancer
            ∧ p.cellMaxAgeBalancerInterval
                = exampleSim.parameters.cellMaxAgeBalancerInterval
            ∧ (∀ i, p.cellMaxAge i = ⌊s1._cellMaxAge i⌋)
            ∧ sim1.numSelfReplicators = exampleSim.numSelfReplicators
            ∧ sim1.currentTimestep = exampleSim.currentTimestep
            ∧ exampleSim.parameters.cellMaxAgeBalancer = true
            ∧ (∃ t, (initializeIfNecessary exampleState exampleSim)._lastTimestep = some t
                ∧ uint64Sub exampleSim.currentTimestep t
                  > toUInt64 exampleSim.parameters.cellMaxAgeBalancerInterval)
            ∧ ∃ c, ((initializeIfNecessary exampleState exampleSim)._numReplicators c
                  + exampleSim.numSelfReplicators c)
                / ((initializeIfNecessary exampleState exampleSim)._numMeasurements + 1)
                > 20) := by
  have hp := process_of_due_pos (fun q => ⌊q⌋) exampleState exampleSim 0 rfl
    (by decide) (by decide) (by decide)
  exact ⟨_, _, hp, rfl, rfl, process_writes_one_snapshot (fun q => ⌊q⌋) _ _ _ _ hp⟩

/-! ## C19: the window start is set when it is read -/

/-- C19. Window start is always defined when read: in every state reached from a
controller created with the snapshot flag false and `lastTimestep` unset, by any
sequence of `process()` calls under arbitrary collaborators, the snapshot flag being
true implies that `lastTimestep` holds a value; hence in every enabled call
`lastTimestep` holds a value after the re-initialization check, where
`doAdaptionIfNecessary` reads it, and every call returns (the empty-optional branch is
not reached). -/
theorem lastTimestep_set_when_read (toInt : ℚ → ℤ) (s : State MAX_COLORS)
    (h : ReachedFromCreation toInt s) :
    (s._lastAdaptiveCellMaxAge = true → s._lastTimestep ≠ none)
    ∧ ∀ sim : SimulationController MAX_COLORS,
        (sim.parameters.cellMaxAgeBalancer = true →
          (initializeIfNecessary s sim)._lastTimestep ≠ none)
        ∧ ∃ s1 sim1, process toInt s sim = some (s1, sim1) := by
  have hinv : s._lastAdaptiveCellMaxAge = true → s._lastTimestep ≠ none := by
    induction h with
    | created s hf _ =>
      intro ht
      rw [hf] at ht
      exact absurd ht (by simp)
    | step s sim s1 sim1 _ hp ih =>
      obtain ⟨s2, sim2, hp2, hinv2⟩ := process_returns toInt s sim ih
      rw [hp] at hp2
      simp only [Option.some.injEq, Prod.mk.injEq] at hp2
      rw [hp2.1]
      exact hinv2
  refine ⟨hinv, fun sim => ⟨fun hen => ?_, ?_⟩⟩
  · obtain ⟨t, ht⟩ := lastTimestep_after_initialize s sim hen hinv
    rw [ht]
    simp
  · obtain ⟨s1, sim1, hp, _⟩ := process_returns toInt s sim hinv
    exact ⟨s1, sim1, hp⟩

/-- Witness of C19: the fresh controller after its first enabled call, called again. -/
theorem lastTimestep_set_when_read_witness :
    (afterInitState._lastAdaptiveCellMaxAge = true → afterInitState._lastTimestep ≠ none)
    ∧ (exampleSim.parameters.cellMaxAgeBalancer = true →
        (initializeIfNecessary afterInitState exampleSim)._lastTimestep ≠ none)
    ∧ ∃ s1 sim1, process (fun q => ⌊q⌋) afterInitState exampleSim = some (s1, sim1) :=
  have h := lastTimestep_set_when_read (fun q => ⌊q⌋) afterInitState
    (ReachedFromCreation.step freshState startSim afterInitState startSim
      (ReachedFromCreation.created freshState rfl rfl)
      (process_of_needs _ freshState startSim rfl (by decide)))
  ⟨h.1, h.2 exampleSim⟩

/-! ## C20: no division by zero in the decision step -/

/-- C20 (amended). No division by zero in the decision step: after the accumulation of
lines 57-60 `numMeasurements` is at least 1; when some color is collected the number of
collected colors, by which the sum is divided at line 79, is at least 1; every collected
color has `numReplicators[c] ≥ 21 * numMeasurements > 0`; a positive cross-average
implies that some color is collected, so that behind the guard of line 82 every divisor
of lines 84-87 is non-zero; and provided the sum of the collected counts is below `2^64`,
the cross-average is positive exactly when at least one color is collected. -/
theorem decision_divisors_nonzero (s : State MAX_COLORS)
    (sim : SimulationController MAX_COLORS) :
    1 ≤ (accumulate s sim)._numMeasurements
    ∧ ((scanColors (accumulate s sim)._numReplicators
          (accumulate s sim)._numMeasurements).colors ≠ []
        → 1 ≤ (scanColors (accumulate s sim)._numReplicators
          (accumulate s sim)._numMeasurements).colors.length)
    ∧ (∀ c ∈ (scanColors (accumulate s sim)._numReplicators
          (accumulate s sim)._numMeasurements).colors,
        21 * (accumulate s sim)._numMeasurements ≤ (accumulate s sim)._numReplicators c
        ∧ 0 < 21 * (accumulate s sim)._numMeasurements
        ∧ toDouble ((accumulate s sim)._numReplicators c) ≠ 0)
    ∧ (0 < crossAverage (accumulate s sim)._numReplicators
          (accumulate s sim)._numMeasurements
        → (scanColors (accumulate s sim)._numReplicators
            (accumulate s sim)._numMeasurements).colors ≠ []
          ∧ toDouble (crossAverage (accumulate s sim)._numReplicators
            (accumulate s sim)._numMeasurements) ≠ 0)
    ∧ ((∑ c ∈ Finset.filter
            (fun c => (accumulate s sim)._numReplicators c
              / (accumulate s sim)._numMeasurements > 20) Finset.univ,
          (accumulate s sim)._numReplicators c) < 2 ^ 64
        → (0 < crossAverage (accumulate s sim)._numReplicators
              (accumulate s sim)._numMeasurements
            ↔ (scanColors (accumulate s sim)._numReplicators
              (accumulate s sim)._numMeasurements).colors ≠ [])) := by
  have hm : 1 ≤ (accumulate s sim)._numMeasurements := Nat.le_add_left 1 _
  have hpos : 0 < crossAverage (accumulate s sim)._numReplicators
        (accumulate s sim)._numMeasurements
      → (scanColors (accumulate s sim)._numReplicators
          (accumulate s sim)._numMeasurements).colors ≠ [] := fun h =>
    (scanColors_colors_ne_nil_iff _ _).mpr (exists_active_of_crossAverage_pos _ _ h)
  refine ⟨hm, fun h => List.length_pos.mpr h, fun c hc => ?_, fun h => ⟨hpos h, ?_⟩,
    fun hfit => ⟨hpos, fun h => ?_⟩⟩
  · have hact := (mem_scanColors _ _ c).mp hc
    have h21 := (active_iff_mul_le _ _ c hm).mp hact
    refine ⟨h21, by omega, ?_⟩
    unfold toDouble
    have hpos : 0 < (accumulate s sim)._numReplicators c := by omega
    exact_mod_cast (Nat.pos_iff_ne_zero.mp hpos)
  · unfold toDouble
    exact_mod_cast (Nat.pos_iff_ne_zero.mp h)
  · obtain ⟨c, hc⟩ := (scanColors_colors_ne_nil_iff _ _).mp h
    exact crossAverage_pos _ _ c hc (by rw [active_sum_eq_finset_sum]; exact hfit)

/-- Counterexample to C20 as stated: a fresh controller is initialized at tick 0 (counts
130 and 50) and called at tick 11 with counts that bring the accumulated counts to
`3 * 2^62` and `2^62` over 2 measurements. The decision is due and the colors 0 and 1
are collected, yet the `uint64_t` sum wraps to 0 and the cross-average is 0: the call
skips the adjustment (no store write, limits unchanged) although two colors are
active. -/
theorem crossAverage_zero_with_active_colors :
    (∀ i, (accumulate afterInitState wrapSim)._numReplicators i = wrappingCounts i)
    ∧ (accumulate afterInitState wrapSim)._numMeasurements = 2
    ∧ (scanColors (accumulate afterInitState wrapSim)._numReplicators
        (accumulate afterInitState wrapSim)._numMeasurements).colors = [0, 1]
    ∧ ¬ 0 < crossAverage (accumulate afterInitState wrapSim)._numReplicators
        (accumulate afterInitState wrapSim)._numMeasurements
    ∧ ∃ s1, process (fun q => ⌊q⌋) afterInitState wrapSim = some (s1, wrapSim)
        ∧ s1._cellMaxAge = afterInitState._cellMaxAge :=
  ⟨by decide, by decide, by decide, by decide,
    _, process_of_due_zero (fun q => ⌊q⌋) afterInitState wrapSim 0 rfl (by decide)
      (by decide) (by decide), rfl⟩

/-- Witness of C20 (amended): the example with counts 130 and 50, where the sum fits and
the cross-average 90 is positive with the two colors collected. -/
theorem decision_divisors_nonzero_witness :
    (∑ c ∈ Finset.filter
        (fun c => (accumulate exampleState exampleSim)._numReplicators c
          / (accumulate exampleState exampleSim)._numMeasurements > 20) Finset.univ,
      (accumulate exampleState exampleSim)._numReplicators c) < 2 ^ 64
    ∧ (0 < crossAverage (accumulate exampleState exampleSim)._numReplicators
          (accumulate exampleState exampleSim)._numMeasurements
        ↔ (scanColors (accumulate exampleState exampleSim)._numReplicators
          (accumulate exampleState exampleSim)._numMeasurements).colors ≠ []) :=
  have h : (∑ c ∈ Finset.filter
        (fun c => (accumulate exampleState exampleSim)._numReplicators c
          / (accumulate exampleState exampleSim)._numMeasurements > 20) Finset.univ,
      (accumulate exampleState exampleSim)._numReplicators c) < 2 ^ 64 := by decide
  ⟨h, (decision_divisors_nonzero exampleState exampleSim).2.2.2.2 h⟩

/-! ## C18: the growth ceiling -/

/-- C18. Growth ceiling: in every controller state reached after a re-initialization,
along calls whose re-initializations read only store limits below 330000, every working
`cellMaxAge[c]` is below 330000 (exact rational arithmetic), for any statistics and any
number of cycles; and one pass of the loop of lines 83-90 leaves the limit, divides it by
1.1, or multiplies it by 1.1, the latter only when it is strictly below 300000, so that
the result is again below 330000. -/
theorem cellMaxAge_below_growth_ceiling (toInt : ℚ → ℤ) (s : State MAX_COLORS)
    (h : ReachedAfterInit toInt (fun p => ∀ i, p.cellMaxAge i < 330000) s)
    (c : Fin MAX_COLORS) :
    s._cellMaxAge c < 330000
    ∧ ∀ sim : SimulationController MAX_COLORS,
        adaptedCellMaxAge s sim c < 330000
        ∧ (adaptedCellMaxAge s sim c = s._cellMaxAge c
          ∨ adaptedCellMaxAge s sim c = s._cellMaxAge c / (11 / 10)
          ∨ (s._cellMaxAge c < 300000
              ∧ adaptedCellMaxAge s sim c = s._cellMaxAge c * (11 / 10))) := by
  have hinv : s._cellMaxAge c < 330000 := by
    induction h with
    | init s sim s1 sim1 he hn hok hp =>
      rcases process_cases toInt s s1 sim sim1 hp with
        ⟨hd, _, _⟩ | ⟨_, _, h2, _⟩ | ⟨_, hn0, _⟩
      · rw [he] at hd
        exact absurd hd (by simp)
      · rw [h2]
        show ((sim.parameters.cellMaxAge c : ℤ) : ℚ) < 330000
        exact_mod_cast hok c
      · rw [hn] at hn0
        exact absurd hn0 (by simp)
    | step s sim s1 sim1 _ hok hp ih =>
      rcases process_cellMaxAge_cases toInt s s1 sim sim1 hp with ⟨he, hn, h1⟩ | h1 | h1
      · rw [h1]
        show ((sim.parameters.cellMaxAge c : ℤ) : ℚ) < 330000
        exact_mod_cast hok he hn c
      · rw [h1]
        exact ih
      · rw [h1]
        exact adaptedCellMaxAge_lt_ceiling s sim c ih
  refine ⟨hinv, fun sim => ⟨adaptedCellMaxAge_lt_ceiling s sim c hinv, ?_⟩⟩
  have hc := adaptedCellMaxAge_cases s sim c
  simpa only [AdaptionFactor, MaxCellAge] using hc

/-- Witness of C18: the fresh controller initialized from a store with all limits at
1000; and a limit of 299999 of the underrepresented color 1 is pushed past `MaxCellAge`
by one decision, to 329998.9. -/
theorem cellMaxAge_below_growth_ceiling_witness :
    (afterInitState._cellMaxAge 1 < 330000
      ∧ ∀ sim : SimulationController 7,
          adaptedCellMaxAge afterInitState sim 1 < 330000
          ∧ (adaptedCellMaxAge afterInitState sim 1 = afterInitState._cellMaxAge 1
            ∨ adaptedCellMaxAge afterInitState sim 1 = afterInitState._cellMaxAge 1 / (11 / 10)
            ∨ (afterInitState._cellMaxAge 1 < 300000
                ∧ adaptedCellMaxAge afterInitState sim 1
                  = afterInitState._cellMaxAge 1 * (11 / 10))))
    ∧ adaptedCellMaxAge nearCeilingState exampleSim 1 = 299999 * (11 / 10)
    ∧ (300000 : ℚ) < 299999 * (11 / 10) := by
  refine ⟨cellMaxAge_below_growth_ceiling (fun q => ⌊q⌋) afterInitState
    (ReachedAfterInit.init freshState startSim afterInitState startSim rfl (by decide)
      (fun _ => show (1000 : ℤ) < 330000 by decide)
      (process_of_needs _ freshState startSim rfl (by decide))) 1, ?_, by norm_num⟩
  rw [adaptedCellMaxAge_of_active _ _ 1 (by decide)]
  have ha : crossAverage (accumulate nearCeilingState exampleSim)._numReplicators
      (accumulate nearCeilingState exampleSim)._numMeasurements = 90 := by decide
  have hn : (accumulate nearCeilingState exampleSim)._numReplicators 1 = 50 := by decide
  have hm : (accumulate nearCeilingState exampleSim)._numMeasurements = 1 := by decide
  rw [ha]
  simp only [adaptedValue, toDouble, hn, hm]
  norm_num [MinReplicatorsUpperValue, AdaptionRatio, AdaptionFactor, MaxCellAge,
    nearCeilingState]

/-! ## C11: the value written back -/

/-- C11. Write-back value, with the conversion `toInt` modelled from the spec as
rounding: for a controller state reached after a re-initialization, in an enabled
`process()` call that is a decision cycle (decision due after the re-initialization
check) with an active color `c`, the call returns and for every color `i` the store's
`cellMaxAge[i]` is the working `cellMaxAge[i]` rounded to the nearest integer, at
distance at most 1/2 from it. -/
theorem process_writes_rounded_limits (s : State MAX_COLORS)
    (hs : ReachedAfterInit toInt (fun _ => True) s)
    (sim : SimulationController MAX_COLORS) (t : ℕ) (c : Fin MAX_COLORS)
    (henabled : sim.parameters.cellMaxAgeBalancer = true)
    (hlast : (initializeIfNecessary s sim)._lastTimestep = some t)
    (hdue : uint64Sub sim.currentTimestep t
      > toUInt64 sim.parameters.cellMaxAgeBalancerInterval)
    (_hactive : ((initializeIfNecessary s sim)._numReplicators c + sim.numSelfReplicators c)
      / ((initializeIfNecessary s sim)._numMeasurements + 1) > 20) :
    ∃ s1 sim1, process toInt s sim = some (s1, sim1)
      ∧ ∀ i, sim1.parameters.cellMaxAge i = round (s1._cellMaxAge i)
        ∧ |s1._cellMaxAge i - (sim1.parameters.cellMaxAge i : ℚ)| ≤ 1 / 2 := by
  have key : ∃ s1 sim1, process toInt s sim = some (s1, sim1)
      ∧ ∀ i, sim1.parameters.cellMaxAge i = round (s1._cellMaxAge i) := by
    by_cases havg : 0 < crossAverage
        (accumulate (initializeIfNecessary s sim) sim)._numReplicators
        (accumulate (initializeIfNecessary s sim) sim)._numMeasurements
    · exact ⟨_, _, process_of_due_pos toInt s sim t henabled hlast hdue havg, fun _ => rfl⟩
    · have havg0 : crossAverage
          (accumulate (initializeIfNecessary s sim) sim)._numReplicators
          (accumulate (initializeIfNecessary s sim) sim)._numMeasurements = 0 :=
        Nat.eq_zero_of_not_pos havg
      have hn := needsInitialization_eq_false_of_due s sim t hlast hdue
      have h0 := initializeIfNecessary_of_not_needs s sim hn
      have hf := needsInitialization_eq_false s sim hn
      have hsync := synced_of_reached toInt (fun k => round_intCast k) _ s hs
        (by rw [← hf.2, henabled])
      refine ⟨_, _, process_of_due_zero toInt s sim t henabled hlast hdue havg0, fun i => ?_⟩
      show sim.parameters.cellMaxAge i = round ((initializeIfNecessary s sim)._cellMaxAge i)
      rw [h0, hf.1 i]
      exact hsync i
  obtain ⟨s1, sim1, hp, hr⟩ := key
  refine ⟨s1, sim1, hp, fun i => ⟨hr i, ?_⟩⟩
  rw [hr i]
  exact abs_sub_round _

/-- Witness of C11: a fresh controller is initialized at tick 0 from a store with every
limit at 100 and decides at tick 11 with counts 130 and 50 per tick: the limit of color
0 is divided by 1.1 and the working value 90.909... is stored as 91. -/
theorem process_writes_rounded_limits_witness :
    ∃ s1 sim1, process toInt hundredAfterInitState hundredSim = some (s1, sim1)
      ∧ s1._cellMaxAge 0 = 1000 / 11
      ∧ sim1.parameters.cellMaxAge 0 = 91
      ∧ ∀ i, sim1.parameters.cellMaxAge i = round (s1._cellMaxAge i)
        ∧ |s1._cellMaxAge i - (sim1.parameters.cellMaxAge i : ℚ)| ≤ 1 / 2 := by
  obtain ⟨s1, sim1, hp, hr⟩ := process_writes_rounded_limits hundredAfterInitState
    (ReachedAfterInit.init freshState hundredStartSim hundredAfterInitState hundredStartSim
      rfl (by decide) trivial (process_of_needs _ freshState hundredStartSim rfl (by decide)))
    hundredSim 0 0 rfl (by decide) (by decide) (by decide)
  have hp2 := process_of_due_pos toInt hundredAfterInitState hundredSim 0 rfl
    (by decide) (by decide) (by decide)
  rw [hp] at hp2
  simp only [Option.some.injEq, Prod.mk.injEq] at hp2
  have hw : s1._cellMaxAge 0 = 1000 / 11 := by
    rw [hp2.1]
    show adaptedCellMaxAge (initializeIfNecessary hundredAfterInitState hundredSim)
      hundredSim 0 = _
    rw [initializeIfNecessary_of_not_needs _ _ (by decide),
      adaptedCellMaxAge_of_active _ _ 0 (by decide)]
    have ha : crossAverage (accumulate hundredAfterInitState hundredSim)._numReplicators
        (accumulate hundredAfterInitState hundredSim)._numMeasurements = 180 := by decide
    have hn : (accumulate hundredAfterInitState hundredSim)._numReplicators 0 = 260 := by
      decide
    have hm : (accumulate hundredAfterInitState hundredSim)._numMeasurements = 2 := by
      decide
    rw [ha]
    simp only [adaptedValue, toDouble, hn, hm]
    norm_num [MinReplicatorsUpperValue, AdaptionRatio, AdaptionFactor,
      hundredAfterInitState, hundredStartSim]
  refine ⟨s1, sim1, hp, hw, ?_, hr⟩
  rw [(hr 0).1, hw, round_eq, Int.floor_eq_iff]
  norm_num

end BalancerController

/-! ## C12: selection cloning -/

namespace SelectionBuilder

theorem construct_ids (descs : List CellChangeDescription) :
    ∀ nextId, (construct nextId descs).1.map Cell.id = List.range' nextId descs.length := by
  induction descs with
  | nil => intro n; rfl
  | cons d rest ih =>
    intro n
    simp only [construct, List.map_cons, List.length_cons, List.range'_succ, ih (n + 1)]

theorem construct_map_values (descs : List CellChangeDescription) :
    ∀ nextId, (construct nextId descs).2.map Prod.snd
      = (construct nextId descs).1.map Cell.id := by
  induction descs with
  | nil => intro n; rfl
  | cons d rest ih =>
    intro n
    simp only [construct, List.map_cons, ih (n + 1)]

theorem construct_map_keys (descs : List CellChangeDescription) :
    ∀ nextId, (construct nextId descs).2.map Prod.fst
      = descs.map CellChangeDescription.id := by
  induction descs with
  | nil => intro n; rfl
  | cons d rest ih =>
    intro n
    simp only [construct, List.map_cons, ih (n + 1)]

theorem lookup_eq_none_iff_not_key (idMap : List (ℕ × ℕ)) (r : ℕ) :
    idMap.lookup r = none ↔ r ∉ idMap.map Prod.fst := by
  rw [List.lookup_eq_none_iff]
  simp only [List.mem_map, not_exists, not_and, bne_iff_ne, ne_eq]
  constructor
  · intro h p hp e
    exact h p hp e.symm
  · intro h p hp e
    exact h p hp e.symm

theorem mem_values_of_lookup (idMap : List (ℕ × ℕ)) (r b : ℕ)
    (h : idMap.lookup r = some b) : b ∈ idMap.map Prod.snd := by
  rw [List.lookup_eq_some_iff] at h
  obtain ⟨l1, l2, hl, _⟩ := h
  rw [hl]
  simp

theorem construct_lookup (descs : List CellChangeDescription) :
    ∀ nextId, (descs.map CellChangeDescription.id).Nodup →
      List.Forall₂ (fun d c => (construct nextId descs).2.lookup d.id = some c.id)
        descs (construct nextId descs).1 := by
  induction descs with
  | nil => intro n _; exact List.Forall₂.nil
  | cons d rest ih =>
    intro n hnd
    rw [List.map_cons, List.nodup_cons] at hnd
    simp only [construct]
    refine List.Forall₂.cons ?_ ?_
    · exact List.lookup_cons_self
    · refine List.Forall₂.imp ?_ (ih (n + 1) hnd.2)
      intro d1 c1 h1
      have hkey : d1.id ∈ (construct (n + 1) rest).2.map Prod.fst := by
        by_contra hc
        rw [(lookup_eq_none_iff_not_key _ _).mpr hc] at h1
        exact absurd h1 (by simp)
      rw [construct_map_keys] at hkey
      have hne : d1.id ≠ d.id := fun e => hnd.1 (e ▸ hkey)
      rw [List.lookup_cons]
      have hb : (d1.id == d.id) = false := by simpa using hne
      rw [hb]
      exact h1

theorem exists_desc_of_forall2 (R : CellChangeDescription → Cell → Prop)
    (descs : List CellChangeDescription) (cells : List Cell)
    (h : List.Forall₂ R descs cells) (c : Cell) (hc : c ∈ cells) :
    ∃ d ∈ descs, R d c := by
  induction h with
  | nil => simp at hc
  | @cons d1 c1 ds cs h1 _ ih =>
    rcases List.mem_cons.mp hc with e | hc1
    · exact ⟨d1, List.mem_cons_self _ _, by rw [e]; exact h1⟩
    · obtain ⟨d2, hd2, h2⟩ := ih hc1
      exact ⟨d2, List.mem_cons_of_mem _ hd2, h2⟩

theorem rewireAll_spec (idMap : List (ℕ × ℕ)) (descs : List CellChangeDescription)
    (cells : List Cell)
    (h : List.Forall₂ (fun d c => idMap.lookup d.id = some c.id) descs cells) :
    List.Forall₂
      (fun d c => idMap.lookup d.id = some c.id
        ∧ c.bonds = d.bonds.filterMap (fun r => idMap.lookup r))
      descs (rewireAll idMap descs cells) := by
  induction h with
  | nil => exact List.Forall₂.nil
  | cons h1 _ ih => exact List.Forall₂.cons ⟨h1, rfl⟩ ih

theorem rewireAll_ids (idMap : List (ℕ × ℕ)) (descs : List CellChangeDescription) :
    ∀ cells : List Cell, descs.length = cells.length →
      (rewireAll idMap descs cells).map Cell.id = cells.map Cell.id := by
  induction descs with
  | nil =>
    intro cells h
    cases cells with
    | nil => rfl
    | cons c cs => simp at h
  | cons d rest ih =>
    intro cells h
    cases cells with
    | nil => simp at h
    | cons c cs =>
      simp only [rewireAll, List.map_cons, rewire]
      rw [ih cs (by simpa using h)]

theorem buildExtendedSelection_ids (nextId : ℕ) (descs : List CellChangeDescription) :
    (buildExtendedSelection nextId descs).1.map Cell.id
      = List.range' nextId descs.length := by
  unfold buildExtendedSelection
  rw [rewireAll_ids, construct_ids]
  have h := congrArg List.length (construct_ids descs nextId)
  simpa using h.symm

/-- C12. Selection cloning drops out-of-selection references, on the two-pass build
modelled from the spec: for a selection with pairwise different ids, all below the
counter `nextId` of fresh ids, the build returns one cell per description, in order;
each cell has a fresh id `≥ nextId`, different from every original id and from the other
new ids, recorded in the id map under the old id; its references are exactly the
references of the description that the map resolves, replaced by the new ids; a
reference is dropped exactly when its old id belongs to no description of the selection;
and every reference of a built cell is the id of a built cell (nothing dangles). -/
theorem buildExtendedSelection_resolves_or_drops (nextId : ℕ)
    (descs : List CellChangeDescription)
    (hdistinct : (descs.map CellChangeDescription.id).Nodup)
    (hold : ∀ d ∈ descs, d.id < nextId) :
    (buildExtendedSelection nextId descs).1.length = descs.length
    ∧ List.Forall₂
        (fun d c => (buildExtendedSelection nextId descs).2.lookup d.id = some c.id
          ∧ c.bonds
            = d.bonds.filterMap (fun r => (buildExtendedSelection nextId descs).2.lookup r))
        descs (buildExtendedSelection nextId descs).1
    ∧ (∀ r, (buildExtendedSelection nextId descs).2.lookup r = none
        ↔ ∀ d ∈ descs, d.id ≠ r)
    ∧ (∀ c ∈ (buildExtendedSelection nextId descs).1,
        nextId ≤ c.id ∧ ∀ d ∈ descs, c.id ≠ d.id)
    ∧ ((buildExtendedSelection nextId descs).1.map Cell.id).Nodup
    ∧ (∀ c ∈ (buildExtendedSelection nextId descs).1, ∀ b ∈ c.bonds,
        ∃ c1 ∈ (buildExtendedSelection nextId descs).1, c1.id = b) := by
  have hids := buildExtendedSelection_ids nextId descs
  have hmain : List.Forall₂
      (fun d c => (buildExtendedSelection nextId descs).2.lookup d.id = some c.id
        ∧ c.bonds
          = d.bonds.filterMap (fun r => (buildExtendedSelection nextId descs).2.lookup r))
      descs (buildExtendedSelection nextId descs).1 :=
    rewireAll_spec _ _ _ (construct_lookup descs nextId hdistinct)
  have hfresh : ∀ c ∈ (buildExtendedSelection nextId descs).1, nextId ≤ c.id := by
    intro c hc
    have h1 : c.id ∈ (buildExtendedSelection nextId descs).1.map Cell.id :=
      List.mem_map_of_mem _ hc
    rw [hids, List.mem_range'] at h1
    obtain ⟨i, _, hi⟩ := h1
    omega
  have hvalues : (buildExtendedSelection nextId descs).2.map Prod.snd
      = (buildExtendedSelection nextId descs).1.map Cell.id := by
    rw [hids]
    show (construct nextId descs).2.map Prod.snd = _
    rw [construct_map_values, construct_ids]
  refine ⟨hmain.length_eq.symm, hmain, fun r => ?_, fun c hc => ⟨hfresh c hc, ?_⟩, ?_,
    fun c hc b hb => ?_⟩
  · rw [lookup_eq_none_iff_not_key]
    show r ∉ (construct nextId descs).2.map Prod.fst ↔ _
    rw [construct_map_keys]
    simp only [List.mem_map, not_exists, not_and]
  · intro d hd e
    have h1 := hfresh c hc
    have h2 := hold d hd
    omega
  · rw [hids]
    exact List.nodup_range' _ _
  · obtain ⟨d, _, _, hdc⟩ := exists_desc_of_forall2 _ descs _ hmain c hc
    rw [hdc, List.mem_filterMap] at hb
    obtain ⟨r, _, hr⟩ := hb
    have hv := mem_values_of_lookup _ r b hr
    rw [hvalues, List.mem_map] at hv
    exact hv

/-- Witness of C12: the cells 1, 2, 3 with the bonds 1-2 and 2-3 and a bond of cell 3 to
the outside cell 4, built with fresh ids from 10 on: three cells 10, 11, 12, the map
1 → 10, 2 → 11, 3 → 12, the two bonds 10-11 and 11-12 present and the bond to cell 4
dropped. -/
theorem buildExtendedSelection_resolves_or_drops_witness :
    buildExtendedSelection 10 exampleSelection
      = ([{ id := 10, bonds := [11] }, { id := 11, bonds := [10, 12] },
          { id := 12, bonds := [11] }],
        [(1, 10), (2, 11), (3, 12)])
    ∧ (buildExtendedSelection 10 exampleSelection).2.lookup 4 = none
    ∧ (buildExtendedSelection 10 exampleSelection).1.length = exampleSelection.length
    ∧ (∀ c ∈ (buildExtendedSelection 10 exampleSelection).1,
        10 ≤ c.id ∧ ∀ d ∈ exampleSelection, c.id ≠ d.id)
    ∧ (∀ c ∈ (buildExtendedSelection 10 exampleSelection).1, ∀ b ∈ c.bonds,
        ∃ c1 ∈ (buildExtendedSelection 10 exampleSelection).1, c1.id = b) :=
  have h := buildExtendedSelection_resolves_or_drops 10 exampleSelection (by decide)
    (by decide)
  ⟨rfl, rfl, h.1, h.2.2.2.1, h.2.2.2.2.2⟩

end SelectionBuilder
